import Mathlib

/-!
Verification of the patient-tracking CRUD service.

This file gives a shallow embedding of the data-access layer (`app/crud.py`),
its data model (`app/models.py`), request schemas (`app/schemas.py`), the
domain error taxonomy (`app/exceptions.py`) and the error-translation
boundary (`app/routes/*.py`, `app/database.py`, `app/main.py`), and proves
the behavioural properties stated for the system.

Modelling conventions:
* UUID primary keys are modelled as natural numbers drawn from a per-session
  counter (`nextId`); server-assigned timestamps are naturals taken from the
  session clock (`now`).
* A SQLAlchemy session is modelled as a committed database plus the current
  working view; `commit` publishes the working view, `rollback` restores it
  from the committed one.  Queries read the committed database (the sessions
  are created with `autoflush=False`, and every mutation in the source is
  committed before the next query runs).
* Persistence failures are injected through the session: `failingCommits`
  lists the indices of the `db.commit()` calls that raise, each tagged with
  whether the raised error is an `IntegrityError` (`true`) or another
  `SQLAlchemyError` (`false`).  An empty list gives the failure-free runs.
* `logger.info` / `logger.error` / `logger.warning` calls append to the
  session's `log`.
-/

namespace App

/-- A row of the `person` table (`app/models.py`, class `Person`). -/
structure Person where
  person_id : Nat
  first_name : String
  last_name : String
  email : String
  phone : Option String
  created_at : Nat
  updated_at : Nat
  is_active : Bool
deriving DecidableEq, Repr

/-- A row of the `medical_condition` table (`app/models.py`, class `MedicalCondition`). -/
structure MedicalCondition where
  medical_condition_id : Nat
  name : String
  abbreviation : Option String
  description : Option String
  is_active : Bool
  created_at : Nat
  updated_at : Nat
deriving DecidableEq, Repr

/-- A row of the `patient` table (`app/models.py`, class `Patient`). -/
structure Patient where
  patient_id : Nat
  person_id : Nat
  medical_condition_id : Nat
  first_contact_date : Option Nat
  initial_consult_date : Option Nat
  status : String
  created_at : Nat
  updated_at : Nat
deriving DecidableEq, Repr

/-- A row of the `call_history` table (`app/models.py`, class `CallHistory`). -/
structure CallHistory where
  call_id : Nat
  patient_id : Nat
  pn_id : Option Nat
  booking_date : Option Nat
  call_date : Option Nat
  reminder_date : Option Nat
  no_show : Bool
  call_duration_minutes : Option Nat
  outcome : Option String
  notes : Option String
  created_at : Nat
deriving DecidableEq, Repr

/-- The relational store: the four tables exercised by the business logic. -/
structure DB where
  persons : List Person
  conditions : List MedicalCondition
  patients : List Patient
  calls : List CallHistory
deriving DecidableEq, Repr

/-- Well-formedness of a database state: primary keys are unique per table
(enforced by the store's primary-key constraints). -/
def DB.wf (d : DB) : Prop :=
  (d.persons.map (·.person_id)).Nodup ∧
  (d.conditions.map (·.medical_condition_id)).Nodup ∧
  (d.patients.map (·.patient_id)).Nodup ∧
  (d.calls.map (·.call_id)).Nodup

instance (d : DB) : Decidable d.wf := by unfold DB.wf; infer_instance

/-- A SQLAlchemy session (`app/database.py`): the committed database, the
current working view, the id generator, the clock, how many `db.commit()`
calls have run, which commits fail (and whether as `IntegrityError`), and the
server-side log. -/
structure Session where
  committed : DB
  current : DB
  nextId : Nat
  now : Nat
  commitCount : Nat
  failingCommits : List (Nat × Bool)
  log : List String
deriving DecidableEq, Repr

/-- A fresh request-scoped session over database `d`, as produced by `get_db`. -/
def Session.mk0 (d : DB) (nextId now : Nat) (fails : List (Nat × Bool)) : Session :=
  ⟨d, d, nextId, now, 0, fails, []⟩

/-- The message of the underlying driver error when a commit fails. -/
def failCauseStr (integrity : Bool) (i : Nat) : String :=
  (if integrity then "IntegrityError" else "OperationalError") ++ " raised by commit " ++ toString i

/-- Whether the next `db.commit()` fails, and if so whether as an `IntegrityError`. -/
def Session.failKind (s : Session) : Option Bool :=
  s.failingCommits.lookup s.commitCount

/-- A successful `db.commit()`: the working view becomes the committed database. -/
def Session.commit (s : Session) : Session :=
  { s with committed := s.current, commitCount := s.commitCount + 1 }

/-- A failed `db.commit()`: nothing is published; the session keeps its pending
changes until somebody calls `rollback`. -/
def Session.failedCommit (s : Session) : Session :=
  { s with commitCount := s.commitCount + 1 }

/-- A `db.rollback()`: pending changes are discarded. -/
def Session.rollback (s : Session) : Session :=
  { s with current := s.committed }

/-- A logger call appending one message to the server-side log. -/
def Session.logMsg (s : Session) (m : String) : Session :=
  { s with log := s.log ++ [m] }

/-- A session with no pending changes, as every request starts. -/
def Session.clean (s : Session) : Prop := s.current = s.committed

/-- A session in which no commit will fail. -/
def Session.noFail (s : Session) : Prop := s.failingCommits = []

/-- The error taxonomy (`app/exceptions.py`); `sqlAlchemyError` stands for a
driver-level error escaping a data-access function that has no handler. -/
inductive AppErr where
  | conditionNotFound (conditionId : Nat)
  | personNotFound (personId : Nat)
  | patientNotFound (patientId : Nat)
  | duplicatePatient (personId : Nat)
  | databaseError (message : String) (cause : String)
  | sqlAlchemyError (cause : String)
deriving DecidableEq, Repr

/-- Schema `PersonCreate` (`app/schemas.py`). -/
structure PersonCreate where
  first_name : String
  last_name : String
  email : String
  phone : Option String
deriving DecidableEq, Repr

/-- Schema `MedicalConditionCreate` (`app/schemas.py`). -/
structure MedicalConditionCreate where
  name : String
  abbreviation : Option String
  description : Option String
deriving DecidableEq, Repr

/-- Schema `MedicalConditionUpdate` (`app/schemas.py`): an outer `none` means
the field was not present in the request (pydantic's exclude-unset view);
for nullable columns the inner option is the supplied value. -/
structure MedicalConditionUpdate where
  name : Option String
  abbreviation : Option (Option String)
  description : Option (Option String)
  is_active : Option Bool
deriving DecidableEq, Repr

/-- Whether `model_dump(exclude_unset=True)` of the update is empty. -/
def MedicalConditionUpdate.isEmpty (u : MedicalConditionUpdate) : Bool :=
  u.name.isNone && u.abbreviation.isNone && u.description.isNone && u.is_active.isNone

/-- Schema `PersonUpdate` (`app/schemas.py`), exclude-unset view as above. -/
structure PersonUpdate where
  first_name : Option String
  last_name : Option String
  email : Option String
  phone : Option (Option String)
  is_active : Option Bool
deriving DecidableEq, Repr

/-- Whether `model_dump(exclude_unset=True)` of the update is empty. -/
def PersonUpdate.isEmpty (u : PersonUpdate) : Bool :=
  u.first_name.isNone && u.last_name.isNone && u.email.isNone &&
    u.phone.isNone && u.is_active.isNone

/-- Schema `PatientCreate` (`app/schemas.py`): patient fields plus the
embedded person description. -/
structure PatientCreate where
  medical_condition_id : Nat
  first_contact_date : Option Nat
  initial_consult_date : Option Nat
  status : String
  person : PersonCreate
deriving DecidableEq, Repr

/-- Schema `PatientCreateWithPersonId` (`app/schemas.py`). -/
structure PatientCreateWithPersonId where
  medical_condition_id : Nat
  first_contact_date : Option Nat
  initial_consult_date : Option Nat
  status : String
  person_id : Nat
deriving DecidableEq, Repr

/-- Schema `PatientUpdate` (`app/schemas.py`), exclude-unset view. -/
structure PatientUpdate where
  medical_condition_id : Option Nat
  first_contact_date : Option (Option Nat)
  initial_consult_date : Option (Option Nat)
  status : Option String
deriving DecidableEq, Repr

/-- Whether `model_dump(exclude_unset=True)` of the update is empty. -/
def PatientUpdate.isEmpty (u : PatientUpdate) : Bool :=
  u.medical_condition_id.isNone && u.first_contact_date.isNone &&
    u.initial_consult_date.isNone && u.status.isNone

/-- Schema `CallHistoryCreate` (`app/schemas.py`). -/
structure CallHistoryCreate where
  patient_id : Nat
  pn_id : Option Nat
  booking_date : Option Nat
  call_date : Option Nat
  reminder_date : Option Nat
  no_show : Bool
  call_duration_minutes : Option Nat
  outcome : Option String
  notes : Option String
deriving DecidableEq, Repr

/-- Schema `CallHistoryUpdate` (`app/schemas.py`), exclude-unset view. -/
structure CallHistoryUpdate where
  pn_id : Option (Option Nat)
  booking_date : Option (Option Nat)
  call_date : Option (Option Nat)
  reminder_date : Option (Option Nat)
  no_show : Option Bool
  call_duration_minutes : Option (Option Nat)
  outcome : Option (Option String)
  notes : Option (Option String)
deriving DecidableEq, Repr

/-- Whether `model_dump(exclude_unset=True)` of the update is empty. -/
def CallHistoryUpdate.isEmpty (u : CallHistoryUpdate) : Bool :=
  u.pn_id.isNone && u.booking_date.isNone && u.call_date.isNone &&
    u.reminder_date.isNone && u.no_show.isNone && u.call_duration_minutes.isNone &&
    u.outcome.isNone && u.notes.isNone

/-- Message of `PatientNotFoundError` (`app/exceptions.py`). -/
def patientNotFoundMsg (i : Nat) : String := "Patient " ++ toString i ++ " not found"

/-- Message of `PersonNotFoundError` (`app/exceptions.py`). -/
def personNotFoundMsg (i : Nat) : String := "Person " ++ toString i ++ " not found"

/-- Message of `DuplicatePatientError` (`app/exceptions.py`). -/
def duplicatePatientMsg (i : Nat) : String := "Patient already exists for person " ++ toString i

/-- Message of `MedicalConditionNotFoundError` (`app/exceptions.py`). -/
def conditionNotFoundMsg (i : Nat) : String := "Medical condition " ++ toString i ++ " not found"

/-- The message carried by a raised `AppErr`, mirroring Python's `str(e)`. -/
def AppErr.msg : AppErr → String
  | .conditionNotFound i => conditionNotFoundMsg i
  | .personNotFound i => personNotFoundMsg i
  | .patientNotFound i => patientNotFoundMsg i
  | .duplicatePatient i => duplicatePatientMsg i
  | .databaseError m _ => m
  | .sqlAlchemyError c => c

/-- `crud.get_person`. -/
def get_person (s : Session) (person_id : Nat) : Option Person :=
  s.committed.persons.find? (fun p => p.person_id == person_id)

/-- `crud.get_person_by_email`: exact email match, first row; the `is_active`
flag is not consulted. -/
def get_person_by_email (s : Session) (email : String) : Option Person :=
  s.committed.persons.find? (fun p => p.email == email)

/-- `crud.get_medical_condition`. -/
def get_medical_condition (s : Session) (cid : Nat) : Option MedicalCondition :=
  s.committed.conditions.find? (fun c => c.medical_condition_id == cid)

/-- `crud.get_patient`. -/
def get_patient (s : Session) (pid : Nat) : Option Patient :=
  s.committed.patients.find? (fun p => p.patient_id == pid)

/-- `crud.get_patient_by_person_id`. -/
def get_patient_by_person_id (s : Session) (person_id : Nat) : Option Patient :=
  s.committed.patients.find? (fun p => p.person_id == person_id)

/-- `crud.get_call_history`. -/
def get_call_history (s : Session) (cid : Nat) : Option CallHistory :=
  s.committed.calls.find? (fun c => c.call_id == cid)

/-- `crud.create_person`: insert a new `Person` row (column default
`is_active = true`, server-assigned timestamps) and commit.  On commit
failure, roll back, log, and raise `DatabaseError`. -/
def create_person (s : Session) (person : PersonCreate) :
    Except AppErr Person × Session :=
  let db_person : Person :=
    { person_id := s.nextId
      first_name := person.first_name
      last_name := person.last_name
      email := person.email
      phone := person.phone
      created_at := s.now
      updated_at := s.now
      is_active := true }
  let s1 : Session :=
    { s with current := { s.current with persons := s.current.persons ++ [db_person] }
             nextId := s.nextId + 1 }
  match s1.failKind with
  | some integrity =>
      let cause := failCauseStr integrity s1.commitCount
      let s2 := (s1.failedCommit.rollback).logMsg
        ((if integrity then "Integrity error creating person: "
          else "Database error creating person: ") ++ cause)
      (.error (.databaseError
        (if integrity then "Failed to create person: duplicate email or constraint violation"
         else "Database operation failed: " ++ cause) cause), s2)
  | none =>
      let s2 := s1.commit.logMsg
        ("Created person " ++ toString db_person.person_id ++ " with email " ++ person.email)
      (.ok db_person, s2)

/-- `crud.update_person`: apply exactly the fields present in the update,
then commit.  The function has no exception handler, so a commit failure
escapes as a raw driver error with the session still dirty. -/
def update_person (s : Session) (person_id : Nat) (u : PersonUpdate) :
    Except AppErr (Option Person) × Session :=
  match get_person s person_id with
  | none => (.ok none, s)
  | some db_person =>
    let p2 : Person :=
      { db_person with
          first_name := u.first_name.getD db_person.first_name
          last_name := u.last_name.getD db_person.last_name
          email := u.email.getD db_person.email
          phone := u.phone.getD db_person.phone
          is_active := u.is_active.getD db_person.is_active
          updated_at := if u.isEmpty then db_person.updated_at else s.now }
    let persons2 := s.current.persons.map (fun q => if q.person_id == person_id then p2 else q)
    let s1 : Session := { s with current := { s.current with persons := persons2 } }
    match s1.failKind with
    | some k => (.error (.sqlAlchemyError (failCauseStr k s1.commitCount)), s1.failedCommit)
    | none => (.ok (some p2), s1.commit)

/-- `crud.delete_person`: soft delete, i.e. set `is_active := false` and
commit (the row's `updated_at` is touched by the store's `onupdate`).  No
exception handler. -/
def delete_person (s : Session) (person_id : Nat) :
    Except AppErr Bool × Session :=
  match get_person s person_id with
  | none => (.ok false, s)
  | some db_person =>
    let p2 : Person := { db_person with is_active := false, updated_at := s.now }
    let persons2 := s.current.persons.map (fun q => if q.person_id == person_id then p2 else q)
    let s1 : Session := { s with current := { s.current with persons := persons2 } }
    match s1.failKind with
    | some k => (.error (.sqlAlchemyError (failCauseStr k s1.commitCount)), s1.failedCommit)
    | none => (.ok true, s1.commit)

/-- `crud.create_medical_condition`: insert and commit, wrapping commit
failures into `DatabaseError` after rollback. -/
def create_medical_condition (s : Session) (mc : MedicalConditionCreate) :
    Except AppErr MedicalCondition × Session :=
  let db_condition : MedicalCondition :=
    { medical_condition_id := s.nextId
      name := mc.name
      abbreviation := mc.abbreviation
      description := mc.description
      is_active := true
      created_at := s.now
      updated_at := s.now }
  let s1 : Session :=
    { s with current := { s.current with conditions := s.current.conditions ++ [db_condition] }
             nextId := s.nextId + 1 }
  match s1.failKind with
  | some integrity =>
      let cause := failCauseStr integrity s1.commitCount
      let s2 := (s1.failedCommit.rollback).logMsg
        ((if integrity then "Integrity error creating medical condition: "
          else "Database error creating medical condition: ") ++ cause)
      (.error (.databaseError
        (if integrity then "Failed to create medical condition: duplicate name or constraint violation"
         else "Database operation failed: " ++ cause) cause), s2)
  | none =>
      let s2 := s1.commit.logMsg
        ("Created medical condition " ++ toString db_condition.medical_condition_id)
      (.ok db_condition, s2)

/-- `crud.update_medical_condition`: apply exactly the present fields and
commit; commit failures are rolled back and wrapped into `DatabaseError`. -/
def update_medical_condition (s : Session) (cid : Nat) (u : MedicalConditionUpdate) :
    Except AppErr (Option MedicalCondition) × Session :=
  match get_medical_condition s cid with
  | none => (.ok none, s)
  | some db_condition =>
    let c2 : MedicalCondition :=
      { db_condition with
          name := u.name.getD db_condition.name
          abbreviation := u.abbreviation.getD db_condition.abbreviation
          description := u.description.getD db_condition.description
          is_active := u.is_active.getD db_condition.is_active
          updated_at := if u.isEmpty then db_condition.updated_at else s.now }
    let conditions2 := s.current.conditions.map (fun q => if q.medical_condition_id == cid then c2 else q)
    let s1 : Session := { s with current := { s.current with conditions := conditions2 } }
    match s1.failKind with
    | some integrity =>
        let cause := failCauseStr integrity s1.commitCount
        let s2 := (s1.failedCommit.rollback).logMsg
          ((if integrity then "Integrity error updating medical condition: "
            else "Database error updating medical condition: ") ++ cause)
        (.error (.databaseError
          (if integrity then "Failed to update medical condition: duplicate name or constraint violation"
           else "Database operation failed: " ++ cause) cause), s2)
    | none =>
        let s2 := s1.commit.logMsg ("Updated medical condition " ++ toString cid)
        (.ok (some c2), s2)

/-- `crud.delete_medical_condition`: soft delete (set `is_active := false`,
`updated_at` touched by `onupdate`) and commit; commit failures are rolled
back and wrapped into `DatabaseError`. -/
def delete_medical_condition (s : Session) (cid : Nat) :
    Except AppErr Bool × Session :=
  match get_medical_condition s cid with
  | none => (.ok false, s)
  | some db_condition =>
    let c2 : MedicalCondition := { db_condition with is_active := false, updated_at := s.now }
    let conditions2 := s.current.conditions.map (fun q => if q.medical_condition_id == cid then c2 else q)
    let s1 : Session := { s with current := { s.current with conditions := conditions2 } }
    match s1.failKind with
    | some k =>
        let cause := failCauseStr k s1.commitCount
        let s2 := (s1.failedCommit.rollback).logMsg
          ("Database error deleting medical condition: " ++ cause)
        (.error (.databaseError ("Database operation failed: " ++ cause) cause), s2)
    | none =>
        let s2 := s1.commit.logMsg ("Soft deleted medical condition " ++ toString cid)
        (.ok true, s2)

/-- The new `Person` produced by the returning-patient merge in
`crud.create_patient_with_person`: non-empty supplied first name, last name
and phone overwrite the stored ones (Python truthiness: `None` and `""` are
skipped); nothing else is assigned. -/
def mergePerson (found : Person) (pc : PersonCreate) (now : Nat) : Person :=
  { found with
      first_name := if pc.first_name != "" then pc.first_name else found.first_name
      last_name := if pc.last_name != "" then pc.last_name else found.last_name
      phone := if pc.phone.getD "" != "" then pc.phone else found.phone
      updated_at :=
        if pc.first_name != "" || pc.last_name != "" || pc.phone.getD "" != "" then now
        else found.updated_at }

/-- `crud.create_patient_with_person`: condition check, person resolution by
email (create or merge), duplicate guard, patient insert.  Domain errors are
re-raised after `db.rollback()`; commit failures are rolled back and wrapped
into `DatabaseError`; a `DatabaseError` coming out of the nested
`create_person` call propagates unchanged (the handlers only catch the
domain errors, `IntegrityError` and `SQLAlchemyError`). -/
def create_patient_with_person (s : Session) (patient : PatientCreate) :
    Except AppErr Patient × Session :=
  match get_medical_condition s patient.medical_condition_id with
  | none => (.error (.conditionNotFound patient.medical_condition_id), s.rollback)
  | some _ =>
    let resolved : Except AppErr Person × Session :=
      match get_person_by_email s patient.person.email with
      | none =>
          match create_person s patient.person with
          | (.error e, s1) => (.error e, s1)
          | (.ok db_person, s1) =>
              (.ok db_person, s1.logMsg
                ("Created new person " ++ toString db_person.person_id ++ " for patient"))
      | some found =>
          let merged := mergePerson found patient.person s.now
          let persons2 :=
            s.current.persons.map (fun q => if q.person_id == found.person_id then merged else q)
          let s1 : Session := { s with current := { s.current with persons := persons2 } }
          match s1.failKind with
          | some integrity =>
              let cause := failCauseStr integrity s1.commitCount
              let s2 := (s1.failedCommit.rollback).logMsg
                ((if integrity then "Integrity error creating patient: "
                  else "Database error creating patient: ") ++ cause)
              (.error (.databaseError
                (if integrity then "Failed to create patient: constraint violation"
                 else "Database operation failed: " ++ cause) cause), s2)
          | none =>
              (.ok merged, s1.commit.logMsg
                ("Using existing person " ++ toString found.person_id ++ " for returning patient"))
    match resolved with
    | (.error e, s2) => (.error e, s2)
    | (.ok db_person, s2) =>
      match get_patient_by_person_id s2 db_person.person_id with
      | some _ => (.error (.duplicatePatient db_person.person_id), s2.rollback)
      | none =>
        let db_patient : Patient :=
          { patient_id := s2.nextId
            person_id := db_person.person_id
            medical_condition_id := patient.medical_condition_id
            first_contact_date := patient.first_contact_date
            initial_consult_date := patient.initial_consult_date
            status := patient.status
            created_at := s2.now
            updated_at := s2.now }
        let s3 : Session :=
          { s2 with current := { s2.current with patients := s2.current.patients ++ [db_patient] }
                    nextId := s2.nextId + 1 }
        match s3.failKind with
        | some integrity =>
            let cause := failCauseStr integrity s3.commitCount
            let s4 := (s3.failedCommit.rollback).logMsg
              ((if integrity then "Integrity error creating patient: "
                else "Database error creating patient: ") ++ cause)
            (.error (.databaseError
              (if integrity then "Failed to create patient: constraint violation"
               else "Database operation failed: " ++ cause) cause), s4)
        | none =>
            (.ok db_patient, s3.commit.logMsg
              ("Created patient " ++ toString db_patient.patient_id ++ " for person "
                ++ toString db_person.person_id))

/-- `crud.create_patient_with_existing_person`: person lookup by id first,
then condition check, duplicate guard and patient insert.  No person fields
are merged.  Domain errors are re-raised after `db.rollback()`; commit
failures are rolled back and wrapped into `DatabaseError`. -/
def create_patient_with_existing_person (s : Session) (patient : PatientCreateWithPersonId) :
    Except AppErr Patient × Session :=
  match get_person s patient.person_id with
  | none => (.error (.personNotFound patient.person_id), s.rollback)
  | some _ =>
    match get_medical_condition s patient.medical_condition_id with
    | none => (.error (.conditionNotFound patient.medical_condition_id), s.rollback)
    | some _ =>
      match get_patient_by_person_id s patient.person_id with
      | some _ => (.error (.duplicatePatient patient.person_id), s.rollback)
      | none =>
        let db_patient : Patient :=
          { patient_id := s.nextId
            person_id := patient.person_id
            medical_condition_id := patient.medical_condition_id
            first_contact_date := patient.first_contact_date
            initial_consult_date := patient.initial_consult_date
            status := patient.status
            created_at := s.now
            updated_at := s.now }
        let s1 : Session :=
          { s with current := { s.current with patients := s.current.patients ++ [db_patient] }
                   nextId := s.nextId + 1 }
        match s1.failKind with
        | some integrity =>
            let cause := failCauseStr integrity s1.commitCount
            let s2 := (s1.failedCommit.rollback).logMsg
              ((if integrity then "Integrity error creating patient: "
                else "Database error creating patient: ") ++ cause)
            (.error (.databaseError
              (if integrity then "Failed to create patient: constraint violation"
               else "Database operation failed: " ++ cause) cause), s2)
        | none =>
            (.ok db_patient, s1.commit.logMsg
              ("Created patient " ++ toString db_patient.patient_id ++ " for existing person "
                ++ toString patient.person_id))

/-- `crud.update_patient`: apply exactly the fields present in the update,
then commit.  No exception handler. -/
def update_patient (s : Session) (patient_id : Nat) (u : PatientUpdate) :
    Except AppErr (Option Patient) × Session :=
  match get_patient s patient_id with
  | none => (.ok none, s)
  | some db_patient =>
    let p2 : Patient :=
      { db_patient with
          medical_condition_id := u.medical_condition_id.getD db_patient.medical_condition_id
          first_contact_date := u.first_contact_date.getD db_patient.first_contact_date
          initial_consult_date := u.initial_consult_date.getD db_patient.initial_consult_date
          status := u.status.getD db_patient.status
          updated_at := if u.isEmpty then db_patient.updated_at else s.now }
    let patients2 := s.current.patients.map (fun q => if q.patient_id == patient_id then p2 else q)
    let s1 : Session := { s with current := { s.current with patients := patients2 } }
    match s1.failKind with
    | some k => (.error (.sqlAlchemyError (failCauseStr k s1.commitCount)), s1.failedCommit)
    | none => (.ok (some p2), s1.commit)

/-- `crud.delete_patient`: hard delete, i.e. remove the row with the given
primary key and commit.  No exception handler. -/
def delete_patient (s : Session) (patient_id : Nat) :
    Except AppErr Bool × Session :=
  match get_patient s patient_id with
  | none => (.ok false, s)
  | some _ =>
    let patients2 := s.current.patients.filter (fun q => !(q.patient_id == patient_id))
    let s1 : Session := { s with current := { s.current with patients := patients2 } }
    match s1.failKind with
    | some k => (.error (.sqlAlchemyError (failCauseStr k s1.commitCount)), s1.failedCommit)
    | none => (.ok true, s1.commit)

/-- The `ORDER BY call_date DESC NULLS LAST` comparison used by
`crud.get_call_histories_by_patient`: `a` may come before `b` when `b` has no
call date, or when both have one and `a`'s is the later. -/
def callDateDescNullsLast (a b : CallHistory) : Prop :=
  match a.call_date, b.call_date with
  | _, none => True
  | none, some _ => False
  | some x, some y => y ≤ x

instance : DecidableRel callDateDescNullsLast := by
  intro a b
  unfold callDateDescNullsLast
  rcases ha : a.call_date with _ | x <;> rcases hb : b.call_date with _ | y <;>
    simp <;> infer_instance

instance : IsTotal CallHistory callDateDescNullsLast := by
  constructor
  intro a b
  unfold callDateDescNullsLast
  rcases ha : a.call_date with _ | x <;> rcases hb : b.call_date with _ | y <;> simp
  exact Nat.le_total y x

instance : IsTrans CallHistory callDateDescNullsLast := by
  constructor
  intro a b c hab hbc
  unfold callDateDescNullsLast at *
  rcases ha : a.call_date with _ | x <;> rcases hb : b.call_date with _ | y <;>
    rcases hc : c.call_date with _ | z <;> simp_all
  exact Nat.le_trans hbc hab

/-- `crud.get_call_histories_by_patient`: the patient's call records ordered
by call date descending with nulls last, paged with offset/limit, together
with the total count of the filtered query. -/
def get_call_histories_by_patient (s : Session) (patient_id skip limit : Nat) :
    List CallHistory × Nat :=
  let rows := s.committed.calls.filter (fun c => c.patient_id == patient_id)
  let sorted := rows.insertionSort callDateDescNullsLast
  ((sorted.drop skip).take limit, rows.length)

/-- `crud.create_call_history`: patient existence check, insert and commit;
the patient-not-found error is re-raised after `db.rollback()`; commit
failures are rolled back and wrapped into `DatabaseError`. -/
def create_call_history (s : Session) (ch : CallHistoryCreate) :
    Except AppErr CallHistory × Session :=
  match get_patient s ch.patient_id with
  | none => (.error (.patientNotFound ch.patient_id), s.rollback)
  | some _ =>
    let db_call : CallHistory :=
      { call_id := s.nextId
        patient_id := ch.patient_id
        pn_id := ch.pn_id
        booking_date := ch.booking_date
        call_date := ch.call_date
        reminder_date := ch.reminder_date
        no_show := ch.no_show
        call_duration_minutes := ch.call_duration_minutes
        outcome := ch.outcome
        notes := ch.notes
        created_at := s.now }
    let s1 : Session :=
      { s with current := { s.current with calls := s.current.calls ++ [db_call] }
               nextId := s.nextId + 1 }
    match s1.failKind with
    | some k =>
        let cause := failCauseStr k s1.commitCount
        let s2 := (s1.failedCommit.rollback).logMsg
          ("Database error creating call history: " ++ cause)
        (.error (.databaseError ("Database operation failed: " ++ cause) cause), s2)
    | none =>
        (.ok db_call, s1.commit.logMsg
          ("Created call history " ++ toString db_call.call_id ++ " for patient "
            ++ toString ch.patient_id))

/-- `crud.update_call_history`: apply exactly the fields present in the
update, then commit.  No exception handler.  The `call_history` table has no
`updated_at` column, so no store-assigned timestamp is touched. -/
def update_call_history (s : Session) (call_id : Nat) (u : CallHistoryUpdate) :
    Except AppErr (Option CallHistory) × Session :=
  match get_call_history s call_id with
  | none => (.ok none, s)
  | some db_call =>
    let c2 : CallHistory :=
      { db_call with
          pn_id := u.pn_id.getD db_call.pn_id
          booking_date := u.booking_date.getD db_call.booking_date
          call_date := u.call_date.getD db_call.call_date
          reminder_date := u.reminder_date.getD db_call.reminder_date
          no_show := u.no_show.getD db_call.no_show
          call_duration_minutes := u.call_duration_minutes.getD db_call.call_duration_minutes
          outcome := u.outcome.getD db_call.outcome
          notes := u.notes.getD db_call.notes }
    let calls2 := s.current.calls.map (fun q => if q.call_id == call_id then c2 else q)
    let s1 : Session := { s with current := { s.current with calls := calls2 } }
    match s1.failKind with
    | some k => (.error (.sqlAlchemyError (failCauseStr k s1.commitCount)), s1.failedCommit)
    | none => (.ok (some c2), s1.commit)

/-- `crud.delete_call_history`: hard delete and commit.  No exception
handler. -/
def delete_call_history (s : Session) (call_id : Nat) :
    Except AppErr Bool × Session :=
  match get_call_history s call_id with
  | none => (.ok false, s)
  | some _ =>
    let calls2 := s.current.calls.filter (fun q => !(q.call_id == call_id))
    let s1 : Session := { s with current := { s.current with calls := calls2 } }
    match s1.failKind with
    | some k => (.error (.sqlAlchemyError (failCauseStr k s1.commitCount)), s1.failedCommit)
    | none => (.ok true, s1.commit)

/-- Message used by the call-history routes for a missing record. -/
def callHistoryNotFoundMsg (i : Nat) : String := "Call history " ++ toString i ++ " not found"

/-- An HTTP response as seen by the caller: status code and error detail
(empty for successful requests; response bodies are out of scope). -/
structure HttpResponse where
  status : Nat
  detail : String
deriving DecidableEq, Repr

/-- Outcome of a route handler body, before the session teardown and the
application-level exception handlers run: a successful return, a raised
`HTTPException`, or an exception the route does not catch. -/
inductive RouteOut where
  | ok (httpStatus : Nat)
  | httpExc (httpStatus : Nat) (detail : String)
  | uncaught (e : AppErr)
deriving DecidableEq, Repr

/-- The mutating operations reachable from the HTTP surface
(`app/routes/patients.py`, `app/routes/call_history.py`,
`app/routes/medical_conditions.py`).  The person table has no routes of its
own; it is mutated only through patient creation. -/
inductive MutOp where
  | createPatient (pc : PatientCreate)
  | createPatientExisting (pc : PatientCreateWithPersonId)
  | updatePatientOp (pid : Nat) (u : PatientUpdate)
  | deletePatientOp (pid : Nat)
  | createCondition (mc : MedicalConditionCreate)
  | updateConditionOp (cid : Nat) (u : MedicalConditionUpdate)
  | deleteConditionOp (cid : Nat)
  | createCall (ch : CallHistoryCreate)
  | updateCallOp (cid : Nat) (u : CallHistoryUpdate)
  | deleteCallOp (cid : Nat)
deriving DecidableEq, Repr

/-- The body of the route serving each mutating operation: call the
data-access function and translate its outcome exactly as the route's
`try/except` clauses do (`HTTPException` statuses, route-level logging);
whatever the route does not catch is left to the outer layers. -/
def routeRun (op : MutOp) (s : Session) : RouteOut × Session :=
  match op with
  | .createPatient pc =>
    match create_patient_with_person s pc with
    | (.ok p, s1) =>
        (.ok 201, s1.logMsg ("Successfully created patient " ++ toString p.patient_id))
    | (.error (.duplicatePatient i), s1) =>
        (.httpExc 409 (duplicatePatientMsg i),
          s1.logMsg ("Attempted to create duplicate patient: " ++ duplicatePatientMsg i))
    | (.error (.conditionNotFound i), s1) =>
        (.httpExc 404 (conditionNotFoundMsg i),
          s1.logMsg ("Medical condition not found: " ++ conditionNotFoundMsg i))
    | (.error (.databaseError m _), s1) =>
        (.httpExc 500 "Failed to create patient due to database error",
          s1.logMsg ("Database error creating patient: " ++ m))
    | (.error e, s1) => (.uncaught e, s1)
  | .createPatientExisting pc =>
    match create_patient_with_existing_person s pc with
    | (.ok p, s1) =>
        (.ok 201, s1.logMsg
          ("Successfully created patient " ++ toString p.patient_id ++ " with existing person"))
    | (.error (.personNotFound i), s1) =>
        (.httpExc 404 (personNotFoundMsg i),
          s1.logMsg ("Person not found: " ++ personNotFoundMsg i))
    | (.error (.duplicatePatient i), s1) =>
        (.httpExc 409 (duplicatePatientMsg i),
          s1.logMsg ("Attempted to create duplicate patient: " ++ duplicatePatientMsg i))
    | (.error (.conditionNotFound i), s1) =>
        (.httpExc 404 (conditionNotFoundMsg i),
          s1.logMsg ("Medical condition not found: " ++ conditionNotFoundMsg i))
    | (.error (.databaseError m _), s1) =>
        (.httpExc 500 "Failed to create patient due to database error",
          s1.logMsg ("Database error creating patient: " ++ m))
    | (.error e, s1) => (.uncaught e, s1)
  | .updatePatientOp pid u =>
    match update_patient s pid u with
    | (.ok none, s1) => (.httpExc 404 (patientNotFoundMsg pid), s1)
    | (.ok (some _), s1) => (.ok 200, s1)
    | (.error e, s1) => (.uncaught e, s1)
  | .deletePatientOp pid =>
    match delete_patient s pid with
    | (.ok false, s1) => (.httpExc 404 (patientNotFoundMsg pid), s1)
    | (.ok true, s1) => (.ok 204, s1)
    | (.error e, s1) => (.uncaught e, s1)
  | .createCondition mc =>
    match create_medical_condition s mc with
    | (.ok c, s1) =>
        (.ok 201, s1.logMsg
          ("Successfully created medical condition " ++ toString c.medical_condition_id))
    | (.error (.databaseError m _), s1) =>
        (.httpExc 500 "Failed to create medical condition due to database error",
          s1.logMsg ("Database error creating medical condition: " ++ m))
    | (.error e, s1) => (.uncaught e, s1)
  | .updateConditionOp cid u =>
    match update_medical_condition s cid u with
    | (.ok none, s1) =>
        (.httpExc 404 (conditionNotFoundMsg cid),
          s1.logMsg (conditionNotFoundMsg cid))
    | (.ok (some _), s1) =>
        (.ok 200, s1.logMsg ("Successfully updated medical condition " ++ toString cid))
    | (.error (.databaseError m _), s1) =>
        (.httpExc 500 "Failed to update medical condition due to database error",
          s1.logMsg ("Database error updating medical condition: " ++ m))
    | (.error e, s1) => (.uncaught e, s1)
  | .deleteConditionOp cid =>
    match delete_medical_condition s cid with
    | (.ok false, s1) =>
        (.httpExc 404 (conditionNotFoundMsg cid),
          s1.logMsg (conditionNotFoundMsg cid))
    | (.ok true, s1) =>
        (.ok 204, s1.logMsg ("Successfully soft deleted medical condition " ++ toString cid))
    | (.error (.databaseError m _), s1) =>
        (.httpExc 500 "Failed to delete medical condition due to database error",
          s1.logMsg ("Database error deleting medical condition: " ++ m))
    | (.error e, s1) => (.uncaught e, s1)
  | .createCall ch =>
    match create_call_history s ch with
    | (.ok c, s1) =>
        (.ok 201, s1.logMsg ("Successfully created call history " ++ toString c.call_id))
    | (.error (.patientNotFound i), s1) =>
        (.httpExc 404 (patientNotFoundMsg i),
          s1.logMsg ("Patient not found for call history: " ++ patientNotFoundMsg i))
    | (.error (.databaseError m _), s1) =>
        (.httpExc 500 "Failed to create call history due to database error",
          s1.logMsg ("Database error creating call history: " ++ m))
    | (.error e, s1) => (.uncaught e, s1)
  | .updateCallOp cid u =>
    match update_call_history s cid u with
    | (.ok none, s1) =>
        (.httpExc 404 (callHistoryNotFoundMsg cid),
          s1.logMsg ("Call history " ++ toString cid ++ " not found for update"))
    | (.ok (some _), s1) =>
        (.ok 200, s1.logMsg ("Successfully updated call history " ++ toString cid))
    | (.error e, s1) => (.uncaught e, s1)
  | .deleteCallOp cid =>
    match delete_call_history s cid with
    | (.ok false, s1) =>
        (.httpExc 404 (callHistoryNotFoundMsg cid),
          s1.logMsg ("Call history " ++ toString cid ++ " not found for deletion"))
    | (.ok true, s1) =>
        (.ok 204, s1.logMsg ("Successfully deleted call history " ++ toString cid))
    | (.error e, s1) => (.uncaught e, s1)

/-- The layers around a route body: on any exception propagating out of the
endpoint, the `get_db` dependency (`app/database.py`) logs the session error
and rolls back before re-raising; then `HTTPException`s are shaped by the
framework, a still-uncaught `DatabaseError` is handled by
`database_error_handler` (`app/main.py`) with a fixed generic body, and any
other unhandled exception is answered by the framework's default
`500 Internal Server Error` page (the spec treats the framework as an
external collaborator providing exactly this behavior). -/
def handleRequest (op : MutOp) (s : Session) : HttpResponse × Session :=
  match routeRun op s with
  | (.ok st, s1) => ({ status := st, detail := "" }, s1)
  | (.httpExc st d, s1) =>
      (⟨st, d⟩, (s1.logMsg ("Database session error: " ++ d)).rollback)
  | (.uncaught e, s1) =>
      let s2 := (s1.logMsg ("Database session error: " ++ e.msg)).rollback
      match e with
      | .databaseError m _ =>
          (⟨500, "An internal server error occurred"⟩, s2.logMsg ("Database error: " ++ m))
      | _ => (⟨500, "Internal Server Error"⟩, s2)

/-- Whether a route outcome reports an underlying persistence failure:
either a `DatabaseError` translated by the route into a 500 `HTTPException`,
or a wrapped or raw store error the route did not catch. -/
def RouteOut.isPersistenceFailure : RouteOut → Bool
  | .httpExc st _ => st == 500
  | .uncaught (.databaseError _ _) => true
  | .uncaught (.sqlAlchemyError _) => true
  | _ => false

/-- The generic 500 body the caller sees when the given operation hits a
persistence failure: the route's own fixed detail where the route catches
`DatabaseError`, the framework's default page for the operations whose
data-access function lets the driver error escape. -/
def genericDetail : MutOp → String
  | .createPatient _ => "Failed to create patient due to database error"
  | .createPatientExisting _ => "Failed to create patient due to database error"
  | .updatePatientOp _ _ => "Internal Server Error"
  | .deletePatientOp _ => "Internal Server Error"
  | .createCondition _ => "Failed to create medical condition due to database error"
  | .updateConditionOp _ _ => "Failed to update medical condition due to database error"
  | .deleteConditionOp _ => "Failed to delete medical condition due to database error"
  | .createCall _ => "Failed to create call history due to database error"
  | .updateCallOp _ _ => "Internal Server Error"
  | .deleteCallOp _ => "Internal Server Error"

/-- Ids handed out so far are below the session's id counter, as holds for
every store-generated state: no patient row can reference a person id the
generator has not produced yet. -/
def Session.freshIds (s : Session) : Prop :=
  ∀ p ∈ s.committed.patients, p.person_id < s.nextId

instance (s : Session) : Decidable s.freshIds := by
  unfold Session.freshIds; infer_instance

/-- Fixture: a medical condition on file. -/
def exCondition : MedicalCondition := ⟨2, "Asthma", some "AS", none, true, 0, 0⟩

/-- Fixture: a person on file with no patient role. -/
def exAlice : Person := ⟨1, "Alice", "Smith", "alice@example.com", some "111", 0, 0, true⟩

/-- Fixture: the same person soft-deleted. -/
def exAliceInactive : Person := { exAlice with is_active := false }

/-- Fixture: a patient row for `exAlice`. -/
def exPatient : Patient := ⟨3, 1, 2, none, none, "active", 0, 0⟩

/-- Fixture: a call-history row for `exPatient`. -/
def exCall : CallHistory := ⟨4, 3, none, none, some 9, none, false, some 15, some "reached", none, 0⟩

/-- Fixture: a database with a person and a condition but no patient. -/
def exDB : DB := ⟨[exAlice], [exCondition], [], []⟩

/-- Fixture: a database whose person already has a patient, plus one call. -/
def exDB2 : DB := ⟨[exAlice], [exCondition], [exPatient], [exCall]⟩

/-- Fixture: `exDB` with the person soft-deleted. -/
def exDBInactive : DB := ⟨[exAliceInactive], [exCondition], [], []⟩

/-- Fixture: a failure-free session over `exDB`. -/
def exSession : Session := Session.mk0 exDB 10 5 []

/-- Fixture: a failure-free session over `exDB2`. -/
def exSession2 : Session := Session.mk0 exDB2 10 5 []

/-- Fixture: a failure-free session over `exDBInactive`. -/
def exSessionInactive : Session := Session.mk0 exDBInactive 10 5 []

/-- Fixture: a session over `exDB2` whose first commit fails with a plain
`SQLAlchemyError`. -/
def exSessionFail : Session := Session.mk0 exDB2 10 5 [(0, false)]

/-- Fixture: a returning-patient request for `exAlice`'s email supplying a
new first name, an empty last name and no phone. -/
def exReq : PatientCreate := ⟨2, some 7, none, "active", ⟨"Alicia", "", "alice@example.com", none⟩⟩

/-- Fixture: a patient-creation request with a never-seen email. -/
def exReqNew : PatientCreate := ⟨2, none, none, "active", ⟨"Bob", "Jones", "bob@example.com", some "222"⟩⟩

/-- Fixture: a request for the existing-person variant naming an absent
person and an absent condition. -/
def exReqBothAbsent : PatientCreateWithPersonId := ⟨99, none, none, "active", 42⟩

/-- Fixture: a request for the existing-person variant naming `exAlice`. -/
def exReqExisting : PatientCreateWithPersonId := ⟨2, some 7, none, "active", 1⟩

theorem find?_map_if {α} (p : α → Bool) (g : α → α)
    (hg : ∀ x, p x = true → p (g x) = true) :
    ∀ l : List α, (l.map (fun x => if p x then g x else x)).find? p = (l.find? p).map g := by
  intro l
  induction l with
  | nil => rfl
  | cons a l ih =>
    by_cases ha : p a = true
    · simp [ha, hg a ha]
    · rw [Bool.not_eq_true] at ha
      simp [ha, ih]

theorem find?_filter_not {α} (p : α → Bool) (l : List α) :
    (l.filter (fun x => !(p x))).find? p = none := by
  rw [List.find?_eq_none]
  intro x hx
  rcases List.mem_filter.mp hx with ⟨_, hpx⟩
  simp only [Bool.not_eq_true'] at hpx
  simp [hpx]

theorem map_replace_found_eq {α} (key : α → Nat) (k : Nat) (P : α) :
    ∀ l : List α, (l.map key).Nodup →
      l.find? (fun x => key x == k) = some P →
      l.map (fun x => if key x == k then P else x) = l := by
  intro l
  induction l with
  | nil => intro _ h; cases h
  | cons a l ih =>
    intro hnd hf
    simp only [List.map_cons, List.nodup_cons] at hnd
    by_cases ha : (key a == k) = true
    · have hPa : P = a := by
        simp only [List.find?_cons, ha] at hf
        exact (Option.some_inj.mp hf).symm
      subst hPa
      simp only [List.map_cons, if_pos ha]
      have hk : key P = k := by simpa using ha
      have hrest : ∀ x ∈ l, (if key x == k then P else x) = x := by
        intro x hx
        have hne : key x ≠ k := by
          intro hxk
          exact hnd.1 (by rw [hk, ← hxk]; exact List.mem_map_of_mem key hx)
        simp [hne]
      rw [List.map_congr_left hrest]
      simp
    · simp only [List.find?_cons, ha] at hf
      rw [Bool.not_eq_true] at ha
      simp only [List.map_cons, ha, if_false]
      rw [ih hnd.2 hf]
      simp

theorem get_patient_by_person_id_fresh (s : Session) (h : s.freshIds) :
    get_patient_by_person_id s s.nextId = none := by
  rw [get_patient_by_person_id, List.find?_eq_none]
  intro p hp
  have := h p hp
  simp only [beq_iff_eq]
  omega

/-- C2: for every valid patient-creation request (`create_patient_with_person`)
whose email matches no existing person and whose medical condition exists,
exactly one new `Person` row is inserted carrying the supplied name, email
and phone with `is_active = true`, exactly one new `Patient` row is
inserted, and the patient's `person_id` equals the new person's id. -/
theorem C2_new_email_creates_person_and_patient (s : Session) (req : PatientCreate)
    (c : MedicalCondition)
    (hclean : s.clean) (hnf : s.noFail) (hfresh : s.freshIds)
    (hc : get_medical_condition s req.medical_condition_id = some c)
    (he : get_person_by_email s req.person.email = none) :
    (create_patient_with_person s req).1 =
      .ok { patient_id := s.nextId + 1
            person_id := s.nextId
            medical_condition_id := req.medical_condition_id
            first_contact_date := req.first_contact_date
            initial_consult_date := req.initial_consult_date
            status := req.status
            created_at := s.now
            updated_at := s.now } ∧
    (create_patient_with_person s req).2.committed.persons =
      s.committed.persons ++
        [{ person_id := s.nextId
           first_name := req.person.first_name
           last_name := req.person.last_name
           email := req.person.email
           phone := req.person.phone
           created_at := s.now
           updated_at := s.now
           is_active := true }] ∧
    (create_patient_with_person s req).2.committed.patients =
      s.committed.patients ++
        [{ patient_id := s.nextId + 1
           person_id := s.nextId
           medical_condition_id := req.medical_condition_id
           first_contact_date := req.first_contact_date
           initial_consult_date := req.initial_consult_date
           status := req.status
           created_at := s.now
           updated_at := s.now }] ∧
    (create_patient_with_person s req).2.committed.conditions = s.committed.conditions ∧
    (create_patient_with_person s req).2.committed.calls = s.committed.calls := by
  have hnf' : s.failingCommits = [] := hnf
  have hdup : get_patient_by_person_id s s.nextId = none :=
    get_patient_by_person_id_fresh s hfresh
  rw [Session.clean] at hclean
  simp only [create_patient_with_person, create_person, hc, he,
    Session.failKind, Session.commit, Session.logMsg, hnf', List.lookup_nil,
    get_patient_by_person_id] at *
  simp only [hclean] at *
  simp only [List.find?_eq_none] at hdup
  rw [List.find?_eq_none.mpr hdup]
  simp

theorem mergePerson_person_id (P : Person) (pc : PersonCreate) (now : Nat) :
    (mergePerson P pc now).person_id = P.person_id := rfl

theorem mergePerson_email (P : Person) (pc : PersonCreate) (now : Nat) :
    (mergePerson P pc now).email = P.email := rfl

theorem mergePerson_is_active (P : Person) (pc : PersonCreate) (now : Nat) :
    (mergePerson P pc now).is_active = P.is_active := rfl

theorem mergePerson_created_at (P : Person) (pc : PersonCreate) (now : Nat) :
    (mergePerson P pc now).created_at = P.created_at := rfl

theorem mergePerson_first_name (P : Person) (pc : PersonCreate) (now : Nat) :
    (mergePerson P pc now).first_name =
      if pc.first_name = "" then P.first_name else pc.first_name := by
  show (if pc.first_name != "" then pc.first_name else P.first_name) = _
  by_cases h : pc.first_name = "" <;> simp [h]

theorem mergePerson_last_name (P : Person) (pc : PersonCreate) (now : Nat) :
    (mergePerson P pc now).last_name =
      if pc.last_name = "" then P.last_name else pc.last_name := by
  show (if pc.last_name != "" then pc.last_name else P.last_name) = _
  by_cases h : pc.last_name = "" <;> simp [h]

theorem mergePerson_phone (P : Person) (pc : PersonCreate) (now : Nat) :
    (mergePerson P pc now).phone =
      if pc.phone.getD "" = "" then P.phone else pc.phone := by
  show (if pc.phone.getD "" != "" then pc.phone else P.phone) = _
  by_cases h : pc.phone.getD "" = "" <;> simp [h]

/-- Full characterization of the returning-patient path of
`create_patient_with_person`: condition present, person found by email,
no patient for that person, no commit failure. -/
theorem createPatient_mergePath (s : Session) (req : PatientCreate)
    (c : MedicalCondition) (P : Person)
    (hclean : s.clean) (hnf : s.noFail)
    (hc : get_medical_condition s req.medical_condition_id = some c)
    (he : get_person_by_email s req.person.email = some P)
    (hdup : get_patient_by_person_id s P.person_id = none) :
    (create_patient_with_person s req).1 =
      .ok { patient_id := s.nextId
            person_id := P.person_id
            medical_condition_id := req.medical_condition_id
            first_contact_date := req.first_contact_date
            initial_consult_date := req.initial_consult_date
            status := req.status
            created_at := s.now
            updated_at := s.now } ∧
    (create_patient_with_person s req).2.committed.persons =
      s.committed.persons.map
        (fun q => if q.person_id == P.person_id then mergePerson P req.person s.now else q) ∧
    (create_patient_with_person s req).2.committed.patients =
      s.committed.patients ++
        [{ patient_id := s.nextId
           person_id := P.person_id
           medical_condition_id := req.medical_condition_id
           first_contact_date := req.first_contact_date
           initial_consult_date := req.initial_consult_date
           status := req.status
           created_at := s.now
           updated_at := s.now }] ∧
    (create_patient_with_person s req).2.committed.conditions = s.committed.conditions ∧
    (create_patient_with_person s req).2.committed.calls = s.committed.calls ∧
    (create_patient_with_person s req).2.current = (create_patient_with_person s req).2.committed := by
  have hnf' : s.failingCommits = [] := hnf
  rw [Session.clean] at hclean
  rw [get_patient_by_person_id] at hdup
  simp only [create_patient_with_person, hc, he, Session.failKind, Session.commit,
    Session.logMsg, hnf', List.lookup_nil, get_patient_by_person_id,
    mergePerson_person_id] at *
  simp only [hclean] at *
  rw [hdup]
  simp

/-- C1: for every patient-creation request whose embedded email matches an
existing person that has no patient yet, no new `Person` row is created (the
persons table is a pointwise replacement of the matching row, so its length
is unchanged); the replacement row keeps the stored email, id, active flag
and creation time, and takes the supplied first name, last name and phone
exactly where those were supplied non-empty; and exactly one `Patient` row
is appended, referencing that person's id. -/
theorem C1_returning_patient_merge (s : Session) (req : PatientCreate)
    (c : MedicalCondition) (P : Person)
    (hclean : s.clean) (hnf : s.noFail)
    (hc : get_medical_condition s req.medical_condition_id = some c)
    (he : get_person_by_email s req.person.email = some P)
    (hdup : get_patient_by_person_id s P.person_id = none) :
    (∃ M, (create_patient_with_person s req).2.committed.persons =
        s.committed.persons.map (fun q => if q.person_id == P.person_id then M else q) ∧
      M.person_id = P.person_id ∧
      M.email = P.email ∧
      M.is_active = P.is_active ∧
      M.created_at = P.created_at ∧
      M.first_name = (if req.person.first_name = "" then P.first_name else req.person.first_name) ∧
      M.last_name = (if req.person.last_name = "" then P.last_name else req.person.last_name) ∧
      M.phone = (if req.person.phone.getD "" = "" then P.phone else req.person.phone)) ∧
    (create_patient_with_person s req).2.committed.persons.length =
      s.committed.persons.length ∧
    (∃ pat, (create_patient_with_person s req).1 = .ok pat ∧
      (create_patient_with_person s req).2.committed.patients =
        s.committed.patients ++ [pat] ∧
      pat.person_id = P.person_id) := by
  obtain ⟨h1, h2, h3, -, -, -⟩ :=
    createPatient_mergePath s req c P hclean hnf hc he hdup
  refine ⟨⟨mergePerson P req.person s.now, h2, mergePerson_person_id _ _ _,
    mergePerson_email _ _ _, mergePerson_is_active _ _ _, mergePerson_created_at _ _ _,
    mergePerson_first_name _ _ _, mergePerson_last_name _ _ _, mergePerson_phone _ _ _⟩,
    ?_, ⟨_, h1, h3, rfl⟩⟩
  rw [h2, List.length_map]

/-- C3: for every patient-creation request whose resolved person already
owns a patient, the operation fails with the duplicate-patient error, the
patients table is unchanged, the person-field merge committed in step 2
remains applied (the persons table is the pointwise merge replacement), and
the session holds no pending mutation when the error propagates. -/
theorem C3_duplicate_guard (s : Session) (req : PatientCreate)
    (c : MedicalCondition) (P : Person) (ex : Patient)
    (hclean : s.clean) (hnf : s.noFail)
    (hc : get_medical_condition s req.medical_condition_id = some c)
    (he : get_person_by_email s req.person.email = some P)
    (hdup : get_patient_by_person_id s P.person_id = some ex) :
    (create_patient_with_person s req).1 = .error (.duplicatePatient P.person_id) ∧
    (create_patient_with_person s req).2.committed.patients = s.committed.patients ∧
    (create_patient_with_person s req).2.committed.persons =
      s.committed.persons.map
        (fun q => if q.person_id == P.person_id then mergePerson P req.person s.now else q) ∧
    (create_patient_with_person s req).2.current =
      (create_patient_with_person s req).2.committed := by
  have hnf' : s.failingCommits = [] := hnf
  rw [Session.clean] at hclean
  rw [get_patient_by_person_id] at hdup
  simp only [create_patient_with_person, hc, he, Session.failKind, Session.commit,
    Session.logMsg, Session.rollback, hnf', List.lookup_nil, get_patient_by_person_id,
    mergePerson_person_id] at *
  simp only [hclean] at *
  rw [hdup]
  simp

/-- C4: for every patient-creation request referencing a medical-condition
id that is not on file, `create_patient_with_person` fails with the
condition-not-found error and returns the session exactly as it received it:
no person row is created or modified and no patient row is created. -/
theorem C4_condition_not_found_no_mutation (s : Session) (req : PatientCreate)
    (hclean : s.clean)
    (hc : get_medical_condition s req.medical_condition_id = none) :
    create_patient_with_person s req =
      (.error (.conditionNotFound req.medical_condition_id), s) := by
  obtain ⟨com, cur, ni, nw, cc, fc, lg⟩ := s
  rw [Session.clean] at hclean
  dsimp only at hclean
  subst hclean
  simp [create_patient_with_person, hc, Session.rollback]

theorem C1_witness :
    (∃ M, (create_patient_with_person exSession exReq).2.committed.persons =
        exSession.committed.persons.map (fun q => if q.person_id == exAlice.person_id then M else q) ∧
      M.person_id = exAlice.person_id ∧
      M.email = exAlice.email ∧
      M.is_active = exAlice.is_active ∧
      M.created_at = exAlice.created_at ∧
      M.first_name = (if exReq.person.first_name = "" then exAlice.first_name else exReq.person.first_name) ∧
      M.last_name = (if exReq.person.last_name = "" then exAlice.last_name else exReq.person.last_name) ∧
      M.phone = (if exReq.person.phone.getD "" = "" then exAlice.phone else exReq.person.phone)) ∧
    (create_patient_with_person exSession exReq).2.committed.persons.length =
      exSession.committed.persons.length ∧
    (∃ pat, (create_patient_with_person exSession exReq).1 = .ok pat ∧
      (create_patient_with_person exSession exReq).2.committed.patients =
        exSession.committed.patients ++ [pat] ∧
      pat.person_id = exAlice.person_id) :=
  C1_returning_patient_merge exSession exReq exCondition exAlice
    rfl rfl (by decide) (by decide) (by decide)

theorem C2_witness :
    (create_patient_with_person exSession exReqNew).2.committed.persons =
      exSession.committed.persons ++
        [{ person_id := exSession.nextId
           first_name := exReqNew.person.first_name
           last_name := exReqNew.person.last_name
           email := exReqNew.person.email
           phone := exReqNew.person.phone
           created_at := exSession.now
           updated_at := exSession.now
           is_active := true }] :=
  (C2_new_email_creates_person_and_patient exSession exReqNew exCondition
    rfl rfl (by decide) (by decide) (by decide)).2.1

theorem C3_witness :
    (create_patient_with_person exSession2 exReq).1 =
      .error (.duplicatePatient exAlice.person_id) ∧
    (create_patient_with_person exSession2 exReq).2.committed.patients =
      exSession2.committed.patients :=
  let h := C3_duplicate_guard exSession2 exReq exCondition exAlice exPatient
    rfl rfl (by decide) (by decide) (by decide)
  ⟨h.1, h.2.1⟩

theorem C4_witness :
    create_patient_with_person exSession
        { exReqNew with medical_condition_id := 99 } =
      (.error (.conditionNotFound 99), exSession) :=
  C4_condition_not_found_no_mutation exSession
    { exReqNew with medical_condition_id := 99 } rfl (by decide)

theorem C5_counterexample :
    (create_patient_with_existing_person exSession exReqBothAbsent).1 =
      .error (.personNotFound 42) ∧
    ¬((create_patient_with_existing_person exSession exReqBothAbsent).1 =
      .error (.conditionNotFound 99)) := by
  constructor
  · rfl
  · intro h
    rw [show (create_patient_with_existing_person exSession exReqBothAbsent).1 =
      Except.error (AppErr.personNotFound 42) from rfl] at h
    simp at h

/-- C5 (amended): `create_patient_with_existing_person` performs the same
duplicate guard and patient insert as the embedded-person variant and merges
no person fields, but it resolves the person BEFORE checking the condition:
a request with an absent person id fails with the person-not-found error
even when the medical-condition id is also absent, and the
condition-not-found error is raised only when the person exists; on the
success path the persons table is untouched and exactly one patient row is
appended for the given person id. -/
theorem C5_amended_person_check_first (s : Session) (req : PatientCreateWithPersonId)
    (hclean : s.clean) :
    (get_person s req.person_id = none →
      create_patient_with_existing_person s req =
        (.error (.personNotFound req.person_id), s)) ∧
    (∀ P, get_person s req.person_id = some P →
      get_medical_condition s req.medical_condition_id = none →
      create_patient_with_existing_person s req =
        (.error (.conditionNotFound req.medical_condition_id), s)) ∧
    (∀ P c ex, get_person s req.person_id = some P →
      get_medical_condition s req.medical_condition_id = some c →
      get_patient_by_person_id s req.person_id = some ex →
      create_patient_with_existing_person s req =
        (.error (.duplicatePatient req.person_id), s)) ∧
    (∀ P c, get_person s req.person_id = some P →
      get_medical_condition s req.medical_condition_id = some c →
      get_patient_by_person_id s req.person_id = none →
      s.noFail →
      (create_patient_with_existing_person s req).1 =
        .ok { patient_id := s.nextId
              person_id := req.person_id
              medical_condition_id := req.medical_condition_id
              first_contact_date := req.first_contact_date
              initial_consult_date := req.initial_consult_date
              status := req.status
              created_at := s.now
              updated_at := s.now } ∧
      (create_patient_with_existing_person s req).2.committed.patients =
        s.committed.patients ++
          [{ patient_id := s.nextId
             person_id := req.person_id
             medical_condition_id := req.medical_condition_id
             first_contact_date := req.first_contact_date
             initial_consult_date := req.initial_consult_date
             status := req.status
             created_at := s.now
             updated_at := s.now }] ∧
      (create_patient_with_existing_person s req).2.committed.persons =
        s.committed.persons ∧
      (create_patient_with_existing_person s req).2.committed.conditions =
        s.committed.conditions ∧
      (create_patient_with_existing_person s req).2.committed.calls =
        s.committed.calls) := by
  obtain ⟨com, cur, ni, nw, cc, fc, lg⟩ := s
  rw [Session.clean] at hclean
  dsimp only at hclean
  subst hclean
  refine ⟨?_, ?_, ?_, ?_⟩
  · intro hp
    simp [create_patient_with_existing_person, hp, Session.rollback]
  · intro P hp hc
    simp [create_patient_with_existing_person, hp, hc, Session.rollback]
  · intro P c ex hp hc hdup
    rw [get_patient_by_person_id] at hdup
    simp [create_patient_with_existing_person, hp, hc, hdup,
      get_patient_by_person_id, Session.rollback]
  · intro P c hp hc hdup hnf
    have hnf' : fc = [] := hnf
    subst hnf'
    rw [get_patient_by_person_id] at hdup
    simp [create_patient_with_existing_person, hp, hc, hdup,
      get_patient_by_person_id, Session.failKind, Session.commit, Session.logMsg]

theorem C5_witness :
    create_patient_with_existing_person exSession exReqBothAbsent =
      (.error (.personNotFound 42), exSession) :=
  (C5_amended_person_check_first exSession exReqBothAbsent rfl).1 (by decide)

theorem update_patient_found_spec (s : Session) (pid : Nat) (u : PatientUpdate)
    (P : Patient) (hclean : s.clean) (hnf : s.noFail)
    (hf : get_patient s pid = some P) :
    (update_patient s pid u).1 = .ok (some
      { P with
          medical_condition_id := u.medical_condition_id.getD P.medical_condition_id
          first_contact_date := u.first_contact_date.getD P.first_contact_date
          initial_consult_date := u.initial_consult_date.getD P.initial_consult_date
          status := u.status.getD P.status
          updated_at := if u.isEmpty then P.updated_at else s.now }) ∧
    (update_patient s pid u).2.committed.patients =
      s.committed.patients.map (fun q => if q.patient_id == pid then
        { P with
            medical_condition_id := u.medical_condition_id.getD P.medical_condition_id
            first_contact_date := u.first_contact_date.getD P.first_contact_date
            initial_consult_date := u.initial_consult_date.getD P.initial_consult_date
            status := u.status.getD P.status
            updated_at := if u.isEmpty then P.updated_at else s.now } else q) ∧
    (update_patient s pid u).2.committed.persons = s.committed.persons ∧
    (update_patient s pid u).2.committed.conditions = s.committed.conditions ∧
    (update_patient s pid u).2.committed.calls = s.committed.calls := by
  obtain ⟨com, cur, ni, nw, cc, fc, lg⟩ := s
  rw [Session.clean] at hclean
  dsimp only at hclean
  subst hclean
  have hnf' : fc = [] := hnf
  subst hnf'
  simp [update_patient, hf, Session.failKind, Session.commit]

theorem update_patient_missing_spec (s : Session) (pid : Nat) (u : PatientUpdate)
    (hf : get_patient s pid = none) :
    update_patient s pid u = (.ok none, s) := by
  simp [update_patient, hf]

theorem update_patient_empty_spec (s : Session) (pid : Nat) (P : Patient)
    (hclean : s.clean) (hnf : s.noFail)
    (hwf : (s.committed.patients.map (·.patient_id)).Nodup)
    (hf : get_patient s pid = some P) :
    (update_patient s pid (⟨none, none, none, none⟩ : PatientUpdate)).1 = .ok (some P) ∧
    (update_patient s pid (⟨none, none, none, none⟩ : PatientUpdate)).2.committed =
      s.committed := by
  rw [get_patient] at hf
  obtain ⟨com, cur, ni, nw, cc, fc, lg⟩ := s
  rw [Session.clean] at hclean
  dsimp only at hclean
  subst hclean
  have hnf' : fc = [] := hnf
  subst hnf'
  dsimp only at hf hwf ⊢
  have hrepl := map_replace_found_eq (·.patient_id) pid P cur.patients hwf hf
  simp only [update_patient, get_patient, hf, Session.failKind, Session.commit,
    List.lookup_nil]
  constructor
  · rfl
  · show ({ cur with patients :=
        cur.patients.map (fun q => if q.patient_id == pid then P else q) } : DB) = cur
    rw [hrepl]

theorem update_person_found_spec (s : Session) (pid : Nat) (u : PersonUpdate)
    (P : Person) (hclean : s.clean) (hnf : s.noFail)
    (hf : get_person s pid = some P) :
    (update_person s pid u).1 = .ok (some
      { P with
          first_name := u.first_name.getD P.first_name
          last_name := u.last_name.getD P.last_name
          email := u.email.getD P.email
          phone := u.phone.getD P.phone
          is_active := u.is_active.getD P.is_active
          updated_at := if u.isEmpty then P.updated_at else s.now }) ∧
    (update_person s pid u).2.committed.persons =
      s.committed.persons.map (fun q => if q.person_id == pid then
        { P with
            first_name := u.first_name.getD P.first_name
            last_name := u.last_name.getD P.last_name
            email := u.email.getD P.email
            phone := u.phone.getD P.phone
            is_active := u.is_active.getD P.is_active
            updated_at := if u.isEmpty then P.updated_at else s.now } else q) ∧
    (update_person s pid u).2.committed.patients = s.committed.patients ∧
    (update_person s pid u).2.committed.conditions = s.committed.conditions ∧
    (update_person s pid u).2.committed.calls = s.committed.calls := by
  obtain ⟨com, cur, ni, nw, cc, fc, lg⟩ := s
  rw [Session.clean] at hclean
  dsimp only at hclean
  subst hclean
  have hnf' : fc = [] := hnf
  subst hnf'
  simp [update_person, hf, Session.failKind, Session.commit]

theorem update_person_missing_spec (s : Session) (pid : Nat) (u : PersonUpdate)
    (hf : get_person s pid = none) :
    update_person s pid u = (.ok none, s) := by
  simp [update_person, hf]

theorem update_person_empty_spec (s : Session) (pid : Nat) (P : Person)
    (hclean : s.clean) (hnf : s.noFail)
    (hwf : (s.committed.persons.map (·.person_id)).Nodup)
    (hf : get_person s pid = some P) :
    (update_person s pid (⟨none, none, none, none, none⟩ : PersonUpdate)).1 =
      .ok (some P) ∧
    (update_person s pid (⟨none, none, none, none, none⟩ : PersonUpdate)).2.committed =
      s.committed := by
  rw [get_person] at hf
  obtain ⟨com, cur, ni, nw, cc, fc, lg⟩ := s
  rw [Session.clean] at hclean
  dsimp only at hclean
  subst hclean
  have hnf' : fc = [] := hnf
  subst hnf'
  dsimp only at hf hwf ⊢
  have hrepl := map_replace_found_eq (·.person_id) pid P cur.persons hwf hf
  simp only [update_person, get_person, hf, Session.failKind, Session.commit,
    List.lookup_nil]
  constructor
  · rfl
  · show ({ cur with persons :=
        cur.persons.map (fun q => if q.person_id == pid then P else q) } : DB) = cur
    rw [hrepl]

theorem update_condition_found_spec (s : Session) (cid : Nat)
    (u : MedicalConditionUpdate) (C : MedicalCondition)
    (hclean : s.clean) (hnf : s.noFail)
    (hf : get_medical_condition s cid = some C) :
    (update_medical_condition s cid u).1 = .ok (some
      { C with
          name := u.name.getD C.name
          abbreviation := u.abbreviation.getD C.abbreviation
          description := u.description.getD C.description
          is_active := u.is_active.getD C.is_active
          updated_at := if u.isEmpty then C.updated_at else s.now }) ∧
    (update_medical_condition s cid u).2.committed.conditions =
      s.committed.conditions.map (fun q => if q.medical_condition_id == cid then
        { C with
            name := u.name.getD C.name
            abbreviation := u.abbreviation.getD C.abbreviation
            description := u.description.getD C.description
            is_active := u.is_active.getD C.is_active
            updated_at := if u.isEmpty then C.updated_at else s.now } else q) ∧
    (update_medical_condition s cid u).2.committed.persons = s.committed.persons ∧
    (update_medical_condition s cid u).2.committed.patients = s.committed.patients ∧
    (update_medical_condition s cid u).2.committed.calls = s.committed.calls := by
  obtain ⟨com, cur, ni, nw, cc, fc, lg⟩ := s
  rw [Session.clean] at hclean
  dsimp only at hclean
  subst hclean
  have hnf' : fc = [] := hnf
  subst hnf'
  simp [update_medical_condition, hf, Session.failKind, Session.commit, Session.logMsg]

theorem update_condition_missing_spec (s : Session) (cid : Nat)
    (u : MedicalConditionUpdate)
    (hf : get_medical_condition s cid = none) :
    update_medical_condition s cid u = (.ok none, s) := by
  simp [update_medical_condition, hf]

theorem update_condition_empty_spec (s : Session) (cid : Nat) (C : MedicalCondition)
    (hclean : s.clean) (hnf : s.noFail)
    (hwf : (s.committed.conditions.map (·.medical_condition_id)).Nodup)
    (hf : get_medical_condition s cid = some C) :
    (update_medical_condition s cid
        (⟨none, none, none, none⟩ : MedicalConditionUpdate)).1 = .ok (some C) ∧
    (update_medical_condition s cid
        (⟨none, none, none, none⟩ : MedicalConditionUpdate)).2.committed = s.committed := by
  rw [get_medical_condition] at hf
  obtain ⟨com, cur, ni, nw, cc, fc, lg⟩ := s
  rw [Session.clean] at hclean
  dsimp only at hclean
  subst hclean
  have hnf' : fc = [] := hnf
  subst hnf'
  dsimp only at hf hwf ⊢
  have hrepl := map_replace_found_eq (·.medical_condition_id) cid C cur.conditions hwf hf
  simp only [update_medical_condition, get_medical_condition, hf, Session.failKind,
    Session.commit, Session.logMsg, List.lookup_nil]
  constructor
  · rfl
  · show ({ cur with conditions :=
        cur.conditions.map (fun q => if q.medical_condition_id == cid then C else q) } : DB)
      = cur
    rw [hrepl]

theorem update_call_found_spec (s : Session) (cid : Nat) (u : CallHistoryUpdate)
    (C : CallHistory) (hclean : s.clean) (hnf : s.noFail)
    (hf : get_call_history s cid = some C) :
    (update_call_history s cid u).1 = .ok (some
      { C with
          pn_id := u.pn_id.getD C.pn_id
          booking_date := u.booking_date.getD C.booking_date
          call_date := u.call_date.getD C.call_date
          reminder_date := u.reminder_date.getD C.reminder_date
          no_show := u.no_show.getD C.no_show
          call_duration_minutes := u.call_duration_minutes.getD C.call_duration_minutes
          outcome := u.outcome.getD C.outcome
          notes := u.notes.getD C.notes }) ∧
    (update_call_history s cid u).2.committed.calls =
      s.committed.calls.map (fun q => if q.call_id == cid then
        { C with
            pn_id := u.pn_id.getD C.pn_id
            booking_date := u.booking_date.getD C.booking_date
            call_date := u.call_date.getD C.call_date
            reminder_date := u.reminder_date.getD C.reminder_date
            no_show := u.no_show.getD C.no_show
            call_duration_minutes := u.call_duration_minutes.getD C.call_duration_minutes
            outcome := u.outcome.getD C.outcome
            notes := u.notes.getD C.notes } else q) ∧
    (update_call_history s cid u).2.committed.persons = s.committed.persons ∧
    (update_call_history s cid u).2.committed.conditions = s.committed.conditions ∧
    (update_call_history s cid u).2.committed.patients = s.committed.patients := by
  obtain ⟨com, cur, ni, nw, cc, fc, lg⟩ := s
  rw [Session.clean] at hclean
  dsimp only at hclean
  subst hclean
  have hnf' : fc = [] := hnf
  subst hnf'
  simp [update_call_history, hf, Session.failKind, Session.commit]

theorem update_call_missing_spec (s : Session) (cid : Nat) (u : CallHistoryUpdate)
    (hf : get_call_history s cid = none) :
    update_call_history s cid u = (.ok none, s) := by
  simp [update_call_history, hf]

theorem update_call_empty_spec (s : Session) (cid : Nat) (C : CallHistory)
    (hclean : s.clean) (hnf : s.noFail)
    (hwf : (s.committed.calls.map (·.call_id)).Nodup)
    (hf : get_call_history s cid = some C) :
    (update_call_history s cid
        (⟨none, none, none, none, none, none, none, none⟩ : CallHistoryUpdate)).1 =
      .ok (some C) ∧
    (update_call_history s cid
        (⟨none, none, none, none, none, none, none, none⟩ : CallHistoryUpdate)).2.committed =
      s.committed := by
  rw [get_call_history] at hf
  obtain ⟨com, cur, ni, nw, cc, fc, lg⟩ := s
  rw [Session.clean] at hclean
  dsimp only at hclean
  subst hclean
  have hnf' : fc = [] := hnf
  subst hnf'
  dsimp only at hf hwf ⊢
  have hrepl := map_replace_found_eq (·.call_id) cid C cur.calls hwf hf
  simp only [update_call_history, get_call_history, hf, Session.failKind,
    Session.commit, List.lookup_nil]
  constructor
  · rfl
  · show ({ cur with calls :=
        cur.calls.map (fun q => if q.call_id == cid then C else q) } : DB) = cur
    rw [hrepl]

/-- C6: for each of the four entities, `updatePartial` applies exactly the
fields present in the update request (each updated field equals the supplied
value when present and the prior value when absent, and the key and creation
fields are never touched), the stored table is the pointwise replacement of
the matching row; an update with an empty set of changed fields returns the
row unchanged and leaves the committed database identical; and updating a
missing id returns a not-found result with the session completely
untouched. -/
theorem C6_partial_update :
    (∀ (s : Session) (pid : Nat) (u : PatientUpdate) (P : Patient),
      s.clean → s.noFail → get_patient s pid = some P →
      ∃ P', (update_patient s pid u).1 = .ok (some P') ∧
        (update_patient s pid u).2.committed.patients =
          s.committed.patients.map (fun q => if q.patient_id == pid then P' else q) ∧
        P'.patient_id = P.patient_id ∧
        P'.person_id = P.person_id ∧
        P'.created_at = P.created_at ∧
        P'.medical_condition_id = u.medical_condition_id.getD P.medical_condition_id ∧
        P'.first_contact_date = u.first_contact_date.getD P.first_contact_date ∧
        P'.initial_consult_date = u.initial_consult_date.getD P.initial_consult_date ∧
        P'.status = u.status.getD P.status) ∧
    (∀ (s : Session) (pid : Nat) (u : PatientUpdate),
      get_patient s pid = none → update_patient s pid u = (.ok none, s)) ∧
    (∀ (s : Session) (pid : Nat) (P : Patient),
      s.clean → s.noFail → (s.committed.patients.map (·.patient_id)).Nodup →
      get_patient s pid = some P →
      (update_patient s pid (⟨none, none, none, none⟩ : PatientUpdate)).1 =
        .ok (some P) ∧
      (update_patient s pid (⟨none, none, none, none⟩ : PatientUpdate)).2.committed =
        s.committed) ∧
    (∀ (s : Session) (pid : Nat) (u : PersonUpdate) (P : Person),
      s.clean → s.noFail → get_person s pid = some P →
      ∃ P', (update_person s pid u).1 = .ok (some P') ∧
        (update_person s pid u).2.committed.persons =
          s.committed.persons.map (fun q => if q.person_id == pid then P' else q) ∧
        P'.person_id = P.person_id ∧
        P'.created_at = P.created_at ∧
        P'.first_name = u.first_name.getD P.first_name ∧
        P'.last_name = u.last_name.getD P.last_name ∧
        P'.email = u.email.getD P.email ∧
        P'.phone = u.phone.getD P.phone ∧
        P'.is_active = u.is_active.getD P.is_active) ∧
    (∀ (s : Session) (pid : Nat) (u : PersonUpdate),
      get_person s pid = none → update_person s pid u = (.ok none, s)) ∧
    (∀ (s : Session) (pid : Nat) (P : Person),
      s.clean → s.noFail → (s.committed.persons.map (·.person_id)).Nodup →
      get_person s pid = some P →
      (update_person s pid (⟨none, none, none, none, none⟩ : PersonUpdate)).1 =
        .ok (some P) ∧
      (update_person s pid (⟨none, none, none, none, none⟩ : PersonUpdate)).2.committed =
        s.committed) ∧
    (∀ (s : Session) (cid : Nat) (u : MedicalConditionUpdate) (C : MedicalCondition),
      s.clean → s.noFail → get_medical_condition s cid = some C →
      ∃ C', (update_medical_condition s cid u).1 = .ok (some C') ∧
        (update_medical_condition s cid u).2.committed.conditions =
          s.committed.conditions.map
            (fun q => if q.medical_condition_id == cid then C' else q) ∧
        C'.medical_condition_id = C.medical_condition_id ∧
        C'.created_at = C.created_at ∧
        C'.name = u.name.getD C.name ∧
        C'.abbreviation = u.abbreviation.getD C.abbreviation ∧
        C'.description = u.description.getD C.description ∧
        C'.is_active = u.is_active.getD C.is_active) ∧
    (∀ (s : Session) (cid : Nat) (u : MedicalConditionUpdate),
      get_medical_condition s cid = none →
      update_medical_condition s cid u = (.ok none, s)) ∧
    (∀ (s : Session) (cid : Nat) (C : MedicalCondition),
      s.clean → s.noFail →
      (s.committed.conditions.map (·.medical_condition_id)).Nodup →
      get_medical_condition s cid = some C →
      (update_medical_condition s cid
          (⟨none, none, none, none⟩ : MedicalConditionUpdate)).1 = .ok (some C) ∧
      (update_medical_condition s cid
          (⟨none, none, none, none⟩ : MedicalConditionUpdate)).2.committed =
        s.committed) ∧
    (∀ (s : Session) (cid : Nat) (u : CallHistoryUpdate) (C : CallHistory),
      s.clean → s.noFail → get_call_history s cid = some C →
      ∃ C', (update_call_history s cid u).1 = .ok (some C') ∧
        (update_call_history s cid u).2.committed.calls =
          s.committed.calls.map (fun q => if q.call_id == cid then C' else q) ∧
        C'.call_id = C.call_id ∧
        C'.patient_id = C.patient_id ∧
        C'.created_at = C.created_at ∧
        C'.pn_id = u.pn_id.getD C.pn_id ∧
        C'.booking_date = u.booking_date.getD C.booking_date ∧
        C'.call_date = u.call_date.getD C.call_date ∧
        C'.reminder_date = u.reminder_date.getD C.reminder_date ∧
        C'.no_show = u.no_show.getD C.no_show ∧
        C'.call_duration_minutes = u.call_duration_minutes.getD C.call_duration_minutes ∧
        C'.outcome = u.outcome.getD C.outcome ∧
        C'.notes = u.notes.getD C.notes) ∧
    (∀ (s : Session) (cid : Nat) (u : CallHistoryUpdate),
      get_call_history s cid = none → update_call_history s cid u = (.ok none, s)) ∧
    (∀ (s : Session) (cid : Nat) (C : CallHistory),
      s.clean → s.noFail → (s.committed.calls.map (·.call_id)).Nodup →
      get_call_history s cid = some C →
      (update_call_history s cid
          (⟨none, none, none, none, none, none, none, none⟩ : CallHistoryUpdate)).1 =
        .ok (some C) ∧
      (update_call_history s cid
          (⟨none, none, none, none, none, none, none, none⟩ : CallHistoryUpdate)).2.committed =
        s.committed) := by
  refine ⟨?_, ?_, ?_, ?_, ?_, ?_, ?_, ?_, ?_, ?_, ?_, ?_⟩
  · intro s pid u P hclean hnf hf
    obtain ⟨h1, h2, -⟩ := update_patient_found_spec s pid u P hclean hnf hf
    exact ⟨_, h1, h2, rfl, rfl, rfl, rfl, rfl, rfl, rfl⟩
  · intro s pid u hf
    exact update_patient_missing_spec s pid u hf
  · intro s pid P hclean hnf hwf hf
    exact update_patient_empty_spec s pid P hclean hnf hwf hf
  · intro s pid u P hclean hnf hf
    obtain ⟨h1, h2, -⟩ := update_person_found_spec s pid u P hclean hnf hf
    exact ⟨_, h1, h2, rfl, rfl, rfl, rfl, rfl, rfl, rfl⟩
  · intro s pid u hf
    exact update_person_missing_spec s pid u hf
  · intro s pid P hclean hnf hwf hf
    exact update_person_empty_spec s pid P hclean hnf hwf hf
  · intro s cid u C hclean hnf hf
    obtain ⟨h1, h2, -⟩ := update_condition_found_spec s cid u C hclean hnf hf
    exact ⟨_, h1, h2, rfl, rfl, rfl, rfl, rfl, rfl⟩
  · intro s cid u hf
    exact update_condition_missing_spec s cid u hf
  · intro s cid C hclean hnf hwf hf
    exact update_condition_empty_spec s cid C hclean hnf hwf hf
  · intro s cid u C hclean hnf hf
    obtain ⟨h1, h2, -⟩ := update_call_found_spec s cid u C hclean hnf hf
    exact ⟨_, h1, h2, rfl, rfl, rfl, rfl, rfl, rfl, rfl, rfl, rfl, rfl, rfl⟩
  · intro s cid u hf
    exact update_call_missing_spec s cid u hf
  · intro s cid C hclean hnf hwf hf
    exact update_call_empty_spec s cid C hclean hnf hwf hf

theorem C6_witness :
    ((update_patient exSession2 3 (⟨none, none, none, none⟩ : PatientUpdate)).1 =
      .ok (some exPatient) ∧
    (update_patient exSession2 3 (⟨none, none, none, none⟩ : PatientUpdate)).2.committed =
      exSession2.committed) ∧
    update_patient exSession2 99 (⟨some 7, none, none, some "paused"⟩ : PatientUpdate) =
      (.ok none, exSession2) ∧
    ((update_call_history exSession2 4
        (⟨none, none, none, none, none, none, none, none⟩ : CallHistoryUpdate)).1 =
      .ok (some exCall) ∧
    (update_call_history exSession2 4
        (⟨none, none, none, none, none, none, none, none⟩ : CallHistoryUpdate)).2.committed =
      exSession2.committed) :=
  ⟨C6_partial_update.2.2.1 exSession2 3 exPatient rfl rfl (by decide) (by decide),
   C6_partial_update.2.1 exSession2 99 ⟨some 7, none, none, some "paused"⟩ (by decide),
   (C6_partial_update.2.2.2.2.2.2.2.2.2.2.2) exSession2 4 exCall rfl rfl
     (by decide) (by decide)⟩

theorem delete_person_found_spec (s : Session) (pid : Nat) (P : Person)
    (hclean : s.clean) (hnf : s.noFail) (hf : get_person s pid = some P) :
    (delete_person s pid).1 = .ok true ∧
    get_person (delete_person s pid).2 pid =
      some { P with is_active := false, updated_at := s.now } := by
  rw [get_person] at hf
  have hP := List.find?_some hf
  obtain ⟨com, cur, ni, nw, cc, fc, lg⟩ := s
  rw [Session.clean] at hclean
  dsimp only at hclean
  subst hclean
  have hnf' : fc = [] := hnf
  subst hnf'
  dsimp only at hf ⊢
  have hfind := find?_map_if (fun q : Person => q.person_id == pid)
    (fun _ => ({ P with is_active := false, updated_at := nw } : Person))
    (fun x _ => hP) cur.persons
  rw [hf] at hfind
  simp only [delete_person, get_person, hf, Session.failKind, Session.commit,
    List.lookup_nil]
  exact ⟨trivial, hfind⟩

theorem delete_person_missing_spec (s : Session) (pid : Nat)
    (hf : get_person s pid = none) :
    delete_person s pid = (.ok false, s) := by
  simp [delete_person, hf]

theorem delete_condition_found_spec (s : Session) (cid : Nat) (C : MedicalCondition)
    (hclean : s.clean) (hnf : s.noFail) (hf : get_medical_condition s cid = some C) :
    (delete_medical_condition s cid).1 = .ok true ∧
    get_medical_condition (delete_medical_condition s cid).2 cid =
      some { C with is_active := false, updated_at := s.now } := by
  rw [get_medical_condition] at hf
  have hC := List.find?_some hf
  obtain ⟨com, cur, ni, nw, cc, fc, lg⟩ := s
  rw [Session.clean] at hclean
  dsimp only at hclean
  subst hclean
  have hnf' : fc = [] := hnf
  subst hnf'
  dsimp only at hf ⊢
  have hfind := find?_map_if (fun q : MedicalCondition => q.medical_condition_id == cid)
    (fun _ => ({ C with is_active := false, updated_at := nw } : MedicalCondition))
    (fun x _ => hC) cur.conditions
  rw [hf] at hfind
  simp only [delete_medical_condition, get_medical_condition, hf, Session.failKind,
    Session.commit, Session.logMsg, List.lookup_nil]
  exact ⟨trivial, hfind⟩

theorem delete_condition_missing_spec (s : Session) (cid : Nat)
    (hf : get_medical_condition s cid = none) :
    delete_medical_condition s cid = (.ok false, s) := by
  simp [delete_medical_condition, hf]

theorem delete_patient_found_spec (s : Session) (pid : Nat) (P : Patient)
    (hclean : s.clean) (hnf : s.noFail) (hf : get_patient s pid = some P) :
    (delete_patient s pid).1 = .ok true ∧
    get_patient (delete_patient s pid).2 pid = none := by
  rw [get_patient] at hf
  obtain ⟨com, cur, ni, nw, cc, fc, lg⟩ := s
  rw [Session.clean] at hclean
  dsimp only at hclean
  subst hclean
  have hnf' : fc = [] := hnf
  subst hnf'
  dsimp only at hf ⊢
  simp only [delete_patient, get_patient, hf, Session.failKind, Session.commit,
    List.lookup_nil]
  exact ⟨trivial, find?_filter_not (fun q : Patient => q.patient_id == pid) cur.patients⟩

theorem delete_patient_missing_spec (s : Session) (pid : Nat)
    (hf : get_patient s pid = none) :
    delete_patient s pid = (.ok false, s) := by
  simp [delete_patient, hf]

theorem delete_call_found_spec (s : Session) (cid : Nat) (C : CallHistory)
    (hclean : s.clean) (hnf : s.noFail) (hf : get_call_history s cid = some C) :
    (delete_call_history s cid).1 = .ok true ∧
    get_call_history (delete_call_history s cid).2 cid = none := by
  rw [get_call_history] at hf
  obtain ⟨com, cur, ni, nw, cc, fc, lg⟩ := s
  rw [Session.clean] at hclean
  dsimp only at hclean
  subst hclean
  have hnf' : fc = [] := hnf
  subst hnf'
  dsimp only at hf ⊢
  simp only [delete_call_history, get_call_history, hf, Session.failKind,
    Session.commit, List.lookup_nil]
  exact ⟨trivial, find?_filter_not (fun q : CallHistory => q.call_id == cid) cur.calls⟩

theorem delete_call_missing_spec (s : Session) (cid : Nat)
    (hf : get_call_history s cid = none) :
    delete_call_history s cid = (.ok false, s) := by
  simp [delete_call_history, hf]

/-- C7: deleting a person or medical condition is a soft delete — it reports
whether a row was found, and a found row stays fetchable by id afterwards
with `is_active = false`; deleting a patient or call-history record is a
hard delete — it reports whether a row was found, and a found id is no
longer fetchable afterwards; in all four cases a missing id yields `false`
with the session untouched. -/
theorem C7_delete_semantics :
    (∀ (s : Session) (pid : Nat) (P : Person),
      s.clean → s.noFail → get_person s pid = some P →
      (delete_person s pid).1 = .ok true ∧
      get_person (delete_person s pid).2 pid =
        some { P with is_active := false, updated_at := s.now }) ∧
    (∀ (s : Session) (pid : Nat),
      get_person s pid = none → delete_person s pid = (.ok false, s)) ∧
    (∀ (s : Session) (cid : Nat) (C : MedicalCondition),
      s.clean → s.noFail → get_medical_condition s cid = some C →
      (delete_medical_condition s cid).1 = .ok true ∧
      get_medical_condition (delete_medical_condition s cid).2 cid =
        some { C with is_active := false, updated_at := s.now }) ∧
    (∀ (s : Session) (cid : Nat),
      get_medical_condition s cid = none →
      delete_medical_condition s cid = (.ok false, s)) ∧
    (∀ (s : Session) (pid : Nat) (P : Patient),
      s.clean → s.noFail → get_patient s pid = some P →
      (delete_patient s pid).1 = .ok true ∧
      get_patient (delete_patient s pid).2 pid = none) ∧
    (∀ (s : Session) (pid : Nat),
      get_patient s pid = none → delete_patient s pid = (.ok false, s)) ∧
    (∀ (s : Session) (cid : Nat) (C : CallHistory),
      s.clean → s.noFail → get_call_history s cid = some C →
      (delete_call_history s cid).1 = .ok true ∧
      get_call_history (delete_call_history s cid).2 cid = none) ∧
    (∀ (s : Session) (cid : Nat),
      get_call_history s cid = none → delete_call_history s cid = (.ok false, s)) :=
  ⟨delete_person_found_spec, delete_person_missing_spec,
   delete_condition_found_spec, delete_condition_missing_spec,
   delete_patient_found_spec, delete_patient_missing_spec,
   delete_call_found_spec, delete_call_missing_spec⟩

theorem C7_witness :
    ((delete_person exSession2 1).1 = .ok true ∧
      get_person (delete_person exSession2 1).2 1 =
        some { exAlice with is_active := false, updated_at := exSession2.now }) ∧
    ((delete_patient exSession2 3).1 = .ok true ∧
      get_patient (delete_patient exSession2 3).2 3 = none) ∧
    delete_call_history exSession2 99 = (.ok false, exSession2) :=
  ⟨C7_delete_semantics.1 exSession2 1 exAlice rfl rfl (by decide),
   C7_delete_semantics.2.2.2.2.1 exSession2 3 exPatient rfl rfl (by decide),
   C7_delete_semantics.2.2.2.2.2.2.2 exSession2 99 (by decide)⟩

/-- C9: for every patient id and every skip/limit, the call-history listing
for that patient returns a page that is sorted by call date descending with
records lacking a call date last (the `callDateDescNullsLast` order), every
returned record belongs to that patient, and the second component is the
total count of that patient's call records. -/
theorem C9_call_history_order (s : Session) (pid skip limit : Nat) :
    List.Sorted callDateDescNullsLast (get_call_histories_by_patient s pid skip limit).1 ∧
    (get_call_histories_by_patient s pid skip limit).2 =
      (s.committed.calls.filter (fun c => c.patient_id == pid)).length ∧
    ∀ c ∈ (get_call_histories_by_patient s pid skip limit).1, c.patient_id = pid := by
  have hsub :
      List.Sublist
        ((((s.committed.calls.filter (fun c => c.patient_id == pid)).insertionSort
          callDateDescNullsLast).drop skip).take limit)
        ((s.committed.calls.filter (fun c => c.patient_id == pid)).insertionSort
          callDateDescNullsLast) :=
    (List.take_sublist _ _).trans (List.drop_sublist _ _)
  refine ⟨?_, rfl, ?_⟩
  · exact List.Pairwise.sublist hsub
      (List.sorted_insertionSort callDateDescNullsLast _)
  · intro c hc
    have hmem := (List.mem_insertionSort callDateDescNullsLast).1 (hsub.subset hc)
    have := (List.mem_filter.1 hmem).2
    simpa using this

/-- C10: patient creation by email resolves the person ignoring the
`is_active` flag: when the matching person is soft-deleted (`is_active =
false`) and has no patient, the merge path runs on that person — no new
`Person` row is created, the person is not reactivated (the replacement row
still has `is_active = false`), and one `Patient` row is created attached to
that inactive person's id. -/
theorem C10_inactive_person_reuse (s : Session) (req : PatientCreate)
    (c : MedicalCondition) (P : Person)
    (hclean : s.clean) (hnf : s.noFail)
    (hc : get_medical_condition s req.medical_condition_id = some c)
    (he : get_person_by_email s req.person.email = some P)
    (hinactive : P.is_active = false)
    (hdup : get_patient_by_person_id s P.person_id = none) :
    (∃ M, (create_patient_with_person s req).2.committed.persons =
        s.committed.persons.map (fun q => if q.person_id == P.person_id then M else q) ∧
      M.person_id = P.person_id ∧
      M.is_active = false) ∧
    (create_patient_with_person s req).2.committed.persons.length =
      s.committed.persons.length ∧
    (∃ pat, (create_patient_with_person s req).1 = .ok pat ∧
      (create_patient_with_person s req).2.committed.patients =
        s.committed.patients ++ [pat] ∧
      pat.person_id = P.person_id) := by
  obtain ⟨h1, h2, h3, -, -, -⟩ :=
    createPatient_mergePath s req c P hclean hnf hc he hdup
  refine ⟨⟨mergePerson P req.person s.now, h2, mergePerson_person_id _ _ _, ?_⟩,
    ?_, ⟨_, h1, h3, rfl⟩⟩
  · rw [mergePerson_is_active, hinactive]
  · rw [h2, List.length_map]

theorem C10_witness :
    (∃ M, (create_patient_with_person exSessionInactive exReq).2.committed.persons =
        exSessionInactive.committed.persons.map
          (fun q => if q.person_id == exAliceInactive.person_id then M else q) ∧
      M.person_id = exAliceInactive.person_id ∧
      M.is_active = false) ∧
    (create_patient_with_person exSessionInactive exReq).2.committed.persons.length =
      exSessionInactive.committed.persons.length ∧
    (∃ pat, (create_patient_with_person exSessionInactive exReq).1 = .ok pat ∧
      (create_patient_with_person exSessionInactive exReq).2.committed.patients =
        exSessionInactive.committed.patients ++ [pat] ∧
      pat.person_id = exAliceInactive.person_id) :=
  C10_inactive_person_reuse exSessionInactive exReq exCondition exAliceInactive
    rfl rfl (by decide) (by decide) (by decide) (by decide)

theorem update_patient_error_spec (s : Session) (pid : Nat) (u : PatientUpdate)
    (e : AppErr) (s1 : Session)
    (h : update_patient s pid u = (.error e, s1)) :
    ∃ i k, s.failingCommits.lookup i = some k ∧
      e = .sqlAlchemyError (failCauseStr k i) := by
  unfold update_patient at h
  rcases hf : get_patient s pid with _ | P <;> rw [hf] at h
  · cases h
  · rcases hk : s.failingCommits.lookup s.commitCount with _ | k <;>
      simp only [Session.failKind] at h <;> rw [hk] at h
    · cases h
    · simp at h
      exact ⟨s.commitCount, k, hk, h.1.symm⟩

theorem delete_patient_error_spec (s : Session) (pid : Nat)
    (e : AppErr) (s1 : Session)
    (h : delete_patient s pid = (.error e, s1)) :
    ∃ i k, s.failingCommits.lookup i = some k ∧
      e = .sqlAlchemyError (failCauseStr k i) := by
  unfold delete_patient at h
  rcases hf : get_patient s pid with _ | P <;> rw [hf] at h
  · cases h
  · rcases hk : s.failingCommits.lookup s.commitCount with _ | k <;>
      simp only [Session.failKind] at h <;> rw [hk] at h
    · cases h
    · simp at h
      exact ⟨s.commitCount, k, hk, h.1.symm⟩

theorem update_call_history_error_spec (s : Session) (cid : Nat)
    (u : CallHistoryUpdate) (e : AppErr) (s1 : Session)
    (h : update_call_history s cid u = (.error e, s1)) :
    ∃ i k, s.failingCommits.lookup i = some k ∧
      e = .sqlAlchemyError (failCauseStr k i) := by
  unfold update_call_history at h
  rcases hf : get_call_history s cid with _ | C <;> rw [hf] at h
  · cases h
  · rcases hk : s.failingCommits.lookup s.commitCount with _ | k <;>
      simp only [Session.failKind] at h <;> rw [hk] at h
    · cases h
    · simp at h
      exact ⟨s.commitCount, k, hk, h.1.symm⟩

theorem delete_call_history_error_spec (s : Session) (cid : Nat)
    (e : AppErr) (s1 : Session)
    (h : delete_call_history s cid = (.error e, s1)) :
    ∃ i k, s.failingCommits.lookup i = some k ∧
      e = .sqlAlchemyError (failCauseStr k i) := by
  unfold delete_call_history at h
  rcases hf : get_call_history s cid with _ | C <;> rw [hf] at h
  · cases h
  · rcases hk : s.failingCommits.lookup s.commitCount with _ | k <;>
      simp only [Session.failKind] at h <;> rw [hk] at h
    · cases h
    · simp at h
      exact ⟨s.commitCount, k, hk, h.1.symm⟩

theorem delete_person_error_spec (s : Session) (pid : Nat)
    (e : AppErr) (s1 : Session)
    (h : delete_person s pid = (.error e, s1)) :
    ∃ i k, s.failingCommits.lookup i = some k ∧
      e = .sqlAlchemyError (failCauseStr k i) := by
  unfold delete_person at h
  rcases hf : get_person s pid with _ | P <;> rw [hf] at h
  · cases h
  · rcases hk : s.failingCommits.lookup s.commitCount with _ | k <;>
      simp only [Session.failKind] at h <;> rw [hk] at h
    · cases h
    · simp at h
      exact ⟨s.commitCount, k, hk, h.1.symm⟩

theorem create_person_error_spec (s : Session) (pc : PersonCreate)
    (e : AppErr) (s1 : Session)
    (h : create_person s pc = (.error e, s1)) :
    (∀ c, e ≠ .sqlAlchemyError c) ∧
    (∀ m c, e = .databaseError m c →
      ∃ i k pre, s.failingCommits.lookup i = some k ∧
        pre ++ failCauseStr k i ∈ s1.log) := by
  unfold create_person at h
  rcases hk : s.failingCommits.lookup s.commitCount with _ | k <;>
    simp only [Session.failKind] at h <;> rw [hk] at h
  · simp at h
  · rcases k with _ | _ <;>
      simp [Session.failedCommit, Session.rollback, Session.logMsg] at h
    · refine ⟨fun c hc => by simp [← h.1] at hc,
        fun m c hmc => ⟨s.commitCount, false, "Database error creating person: ", hk, ?_⟩⟩
      rw [← h.2]
      simp
    · refine ⟨fun c hc => by simp [← h.1] at hc,
        fun m c hmc => ⟨s.commitCount, true, "Integrity error creating person: ", hk, ?_⟩⟩
      rw [← h.2]
      simp

theorem create_person_failingCommits (s : Session) (pc : PersonCreate) :
    (create_person s pc).2.failingCommits = s.failingCommits := by
  unfold create_person
  rcases hk : s.failingCommits.lookup s.commitCount with _ | k <;>
    simp [Session.failKind, hk, Session.commit, Session.failedCommit,
      Session.rollback, Session.logMsg]

theorem create_person_commitCount (s : Session) (pc : PersonCreate) :
    (create_person s pc).2.commitCount = s.commitCount + 1 := by
  unfold create_person
  rcases hk : s.failingCommits.lookup s.commitCount with _ | k <;>
    simp [Session.failKind, hk, Session.commit, Session.failedCommit,
      Session.rollback, Session.logMsg]

theorem create_medical_condition_error_spec (s : Session) (mc : MedicalConditionCreate)
    (e : AppErr) (s1 : Session)
    (h : create_medical_condition s mc = (.error e, s1)) :
    (∀ c, e ≠ .sqlAlchemyError c) ∧
    (∀ m c, e = .databaseError m c →
      ∃ i k pre, s.failingCommits.lookup i = some k ∧
        pre ++ failCauseStr k i ∈ s1.log) := by
  unfold create_medical_condition at h
  rcases hk : s.failingCommits.lookup s.commitCount with _ | k <;>
    simp only [Session.failKind] at h <;> rw [hk] at h
  · simp at h
  · rcases k with _ | _ <;>
      simp [Session.failedCommit, Session.rollback, Session.logMsg] at h
    · refine ⟨fun c hc => by simp [← h.1] at hc,
        fun m c hmc => ⟨s.commitCount, false, "Database error creating medical condition: ", hk, ?_⟩⟩
      rw [← h.2]
      simp
    · refine ⟨fun c hc => by simp [← h.1] at hc,
        fun m c hmc => ⟨s.commitCount, true, "Integrity error creating medical condition: ", hk, ?_⟩⟩
      rw [← h.2]
      simp

theorem update_medical_condition_error_spec (s : Session) (cid : Nat)
    (u : MedicalConditionUpdate) (e : AppErr) (s1 : Session)
    (h : update_medical_condition s cid u = (.error e, s1)) :
    (∀ c, e ≠ .sqlAlchemyError c) ∧
    (∀ m c, e = .databaseError m c →
      ∃ i k pre, s.failingCommits.lookup i = some k ∧
        pre ++ failCauseStr k i ∈ s1.log) := by
  unfold update_medical_condition at h
  rcases hf : get_medical_condition s cid with _ | C <;> rw [hf] at h
  · simp at h
  · rcases hk : s.failingCommits.lookup s.commitCount with _ | k <;>
      simp only [Session.failKind] at h <;> rw [hk] at h
    · simp at h
    · rcases k with _ | _ <;>
        simp [Session.failedCommit, Session.rollback, Session.logMsg] at h
      · refine ⟨fun c hc => by simp [← h.1] at hc,
          fun m c hmc => ⟨s.commitCount, false, "Database error updating medical condition: ", hk, ?_⟩⟩
        rw [← h.2]
        simp
      · refine ⟨fun c hc => by simp [← h.1] at hc,
          fun m c hmc => ⟨s.commitCount, true, "Integrity error updating medical condition: ", hk, ?_⟩⟩
        rw [← h.2]
        simp

theorem delete_medical_condition_error_spec (s : Session) (cid : Nat)
    (e : AppErr) (s1 : Session)
    (h : delete_medical_condition s cid = (.error e, s1)) :
    (∀ c, e ≠ .sqlAlchemyError c) ∧
    (∀ m c, e = .databaseError m c →
      ∃ i k pre, s.failingCommits.lookup i = some k ∧
        pre ++ failCauseStr k i ∈ s1.log) := by
  unfold delete_medical_condition at h
  rcases hf : get_medical_condition s cid with _ | C <;> rw [hf] at h
  · simp at h
  · rcases hk : s.failingCommits.lookup s.commitCount with _ | k <;>
      simp only [Session.failKind] at h <;> rw [hk] at h
    · simp at h
    · simp [Session.failedCommit, Session.rollback, Session.logMsg] at h
      refine ⟨fun c hc => by simp [← h.1] at hc,
        fun m c hmc => ⟨s.commitCount, k, "Database error deleting medical condition: ", hk, ?_⟩⟩
      rw [← h.2]
      simp

theorem create_call_history_error_spec (s : Session) (ch : CallHistoryCreate)
    (e : AppErr) (s1 : Session)
    (h : create_call_history s ch = (.error e, s1)) :
    (∀ c, e ≠ .sqlAlchemyError c) ∧
    (∀ m c, e = .databaseError m c →
      ∃ i k pre, s.failingCommits.lookup i = some k ∧
        pre ++ failCauseStr k i ∈ s1.log) := by
  unfold create_call_history at h
  rcases hf : get_patient s ch.patient_id with _ | P <;> rw [hf] at h
  · simp at h
    refine ⟨fun c hc => by simp [← h.1] at hc, fun m c hmc => ?_⟩
    rw [← h.1] at hmc
    cases hmc
  · rcases hk : s.failingCommits.lookup s.commitCount with _ | k <;>
      simp only [Session.failKind] at h <;> rw [hk] at h
    · simp at h
    · simp [Session.failedCommit, Session.rollback, Session.logMsg] at h
      refine ⟨fun c hc => by simp [← h.1] at hc,
        fun m c hmc => ⟨s.commitCount, k, "Database error creating call history: ", hk, ?_⟩⟩
      rw [← h.2]
      simp

theorem create_patient_with_existing_person_error_spec (s : Session)
    (pc : PatientCreateWithPersonId) (e : AppErr) (s1 : Session)
    (h : create_patient_with_existing_person s pc = (.error e, s1)) :
    (∀ c, e ≠ .sqlAlchemyError c) ∧
    (∀ m c, e = .databaseError m c →
      ∃ i k pre, s.failingCommits.lookup i = some k ∧
        pre ++ failCauseStr k i ∈ s1.log) := by
  unfold create_patient_with_existing_person at h
  split at h
  · simp at h
    exact ⟨fun c hc => by simp [← h.1] at hc,
      fun m c hmc => by rw [← h.1] at hmc; simp at hmc⟩
  · split at h
    · simp at h
      exact ⟨fun c hc => by simp [← h.1] at hc,
        fun m c hmc => by rw [← h.1] at hmc; simp at hmc⟩
    · split at h
      · simp at h
        exact ⟨fun c hc => by simp [← h.1] at hc,
          fun m c hmc => by rw [← h.1] at hmc; simp at hmc⟩
      · rename_i hk
        dsimp only at h
        split at h
        · rename_i integrity heq
          have hk' : List.lookup s.commitCount s.failingCommits = some integrity := heq
          rcases integrity with _ | _ <;>
            simp [Session.failedCommit, Session.rollback, Session.logMsg] at h
          · refine ⟨fun c hc => by simp [← h.1] at hc,
              fun m c hmc => ⟨s.commitCount, false, "Database error creating patient: ", hk', ?_⟩⟩
            rw [← h.2]
            simp
          · refine ⟨fun c hc => by simp [← h.1] at hc,
              fun m c hmc => ⟨s.commitCount, true, "Integrity error creating patient: ", hk', ?_⟩⟩
            rw [← h.2]
            simp
        · simp at h

theorem create_patient_with_person_error_spec (s : Session)
    (pc : PatientCreate) (e : AppErr) (s1 : Session)
    (h : create_patient_with_person s pc = (.error e, s1)) :
    (∀ c, e ≠ .sqlAlchemyError c) ∧
    (∀ m c, e = .databaseError m c →
      ∃ i k pre, s.failingCommits.lookup i = some k ∧
        pre ++ failCauseStr k i ∈ s1.log) := by
  unfold create_patient_with_person at h
  split at h
  · simp at h
    exact ⟨fun c hc => by simp [← h.1] at hc,
      fun m c hmc => by rw [← h.1] at hmc; simp at hmc⟩
  · dsimp only at h
    split at h
    · -- person resolution raised: that error propagates as the result
      rename_i eA sA heq
      simp at h
      obtain ⟨he1, hs1⟩ := h
      subst he1
      subst hs1
      split at heq
      · -- no person on file: the raise came from create_person
        split at heq
        · rename_i eB sB hcp
          simp at heq
          obtain ⟨hb1, hb2⟩ := heq
          subst hb1
          subst hb2
          exact create_person_error_spec s pc.person _ _ hcp
        · simp at heq
      · -- existing person: the raise came from the merge commit
        split at heq
        · rename_i integrity heqk
          have hk' : List.lookup s.commitCount s.failingCommits = some integrity := heqk
          rcases integrity with _ | _ <;>
            simp [Session.failedCommit, Session.rollback, Session.logMsg] at heq
          · obtain ⟨hb1, hb2⟩ := heq
            refine ⟨fun c hc => by simp [← hb1] at hc,
              fun m c hmc =>
                ⟨s.commitCount, false, "Database error creating patient: ", hk', ?_⟩⟩
            rw [← hb2]
            simp
          · obtain ⟨hb1, hb2⟩ := heq
            refine ⟨fun c hc => by simp [← hb1] at hc,
              fun m c hmc =>
                ⟨s.commitCount, true, "Integrity error creating patient: ", hk', ?_⟩⟩
            rw [← hb2]
            simp
        · simp at heq
    · -- person resolution succeeded: duplicate guard, then patient insert
      rename_i db_person sB heq
      have hfcB : sB.failingCommits = s.failingCommits := by
        split at heq
        · split at heq
          · simp at heq
          · rename_i dbp tC hcp
            simp at heq
            have hpres := create_person_failingCommits s pc.person
            rw [hcp] at hpres
            rw [← heq.2]
            exact hpres
        · split at heq
          · simp at heq
          · simp only [Prod.mk.injEq] at heq
            rw [← heq.2]
            rfl
      split at h
      · -- the person already owns a patient
        simp at h
        exact ⟨fun c hc => by simp [← h.1] at hc,
          fun m c hmc => by rw [← h.1] at hmc; simp at hmc⟩
      · split at h
        · -- the patient-insert commit failed
          rename_i integrity heqk
          have hk' : List.lookup sB.commitCount sB.failingCommits = some integrity := heqk
          rw [hfcB] at hk'
          rcases integrity with _ | _ <;>
            simp [Session.failedCommit, Session.rollback, Session.logMsg] at h
          · refine ⟨fun c hc => by simp [← h.1] at hc,
              fun m c hmc =>
                ⟨sB.commitCount, false, "Database error creating patient: ", hk', ?_⟩⟩
            rw [← h.2]
            simp
          · refine ⟨fun c hc => by simp [← h.1] at hc,
              fun m c hmc =>
                ⟨sB.commitCount, true, "Integrity error creating patient: ", hk', ?_⟩⟩
            rw [← h.2]
            simp
        · simp at h

/-- C8: for every mutating operation of the HTTP surface, when the
data-access call reports an underlying persistence failure, the session
holds no pending changes by the time the response is produced (the unit of
work was rolled back before the failure was reported), the caller receives
status 500 with a body that is a fixed generic string depending only on the
operation (never on the underlying cause), and the underlying driver
cause appears in the server-side log. -/
theorem C8_persistence_failure_boundary (op : MutOp) (s : Session)
    (hfail : (routeRun op s).1.isPersistenceFailure = true) :
    (handleRequest op s).1.status = 500 ∧
    (handleRequest op s).1.detail = genericDetail op ∧
    (handleRequest op s).2.current = (handleRequest op s).2.committed ∧
    ∃ i k pre, s.failingCommits.lookup i = some k ∧
      pre ++ failCauseStr k i ∈ (handleRequest op s).2.log := by
  rcases op with pc | pc | ⟨pid, u⟩ | pid | mc | ⟨cid, u⟩ | cid | ch | ⟨cid, u⟩ | cid
  · rcases hcr : create_patient_with_person s pc with ⟨r, t⟩
    rcases r with e | p
    · obtain ⟨hnsql, hdb⟩ := create_patient_with_person_error_spec s pc e t hcr
      rcases e with i | i | i | i | ⟨m, c⟩ | c
      · simp [routeRun, hcr, RouteOut.isPersistenceFailure] at hfail 
      · simp [routeRun, hcr, RouteOut.isPersistenceFailure] at hfail 
      · simp [routeRun, hcr, RouteOut.isPersistenceFailure] at hfail 
      · simp [routeRun, hcr, RouteOut.isPersistenceFailure] at hfail 
      · obtain ⟨i, k, pre, hk, hmem⟩ := hdb m c rfl
        refine ⟨?_, ?_, ?_, ⟨i, k, pre, hk, ?_⟩⟩
        · simp [handleRequest, routeRun, hcr]
        · simp [handleRequest, routeRun, hcr, genericDetail]
        · simp [handleRequest, routeRun, hcr, Session.logMsg, Session.rollback]
        · simp only [handleRequest, routeRun, hcr, Session.logMsg, Session.rollback]
          simp [List.mem_append]
          exact Or.inl hmem
      · exact absurd rfl (hnsql c)
    · simp [routeRun, hcr, RouteOut.isPersistenceFailure] at hfail
  · rcases hcr : create_patient_with_existing_person s pc with ⟨r, t⟩
    rcases r with e | p
    · obtain ⟨hnsql, hdb⟩ := create_patient_with_existing_person_error_spec s pc e t hcr
      rcases e with i | i | i | i | ⟨m, c⟩ | c
      · simp [routeRun, hcr, RouteOut.isPersistenceFailure] at hfail 
      · simp [routeRun, hcr, RouteOut.isPersistenceFailure] at hfail 
      · simp [routeRun, hcr, RouteOut.isPersistenceFailure] at hfail 
      · simp [routeRun, hcr, RouteOut.isPersistenceFailure] at hfail 
      · obtain ⟨i, k, pre, hk, hmem⟩ := hdb m c rfl
        refine ⟨?_, ?_, ?_, ⟨i, k, pre, hk, ?_⟩⟩
        · simp [handleRequest, routeRun, hcr]
        · simp [handleRequest, routeRun, hcr, genericDetail]
        · simp [handleRequest, routeRun, hcr, Session.logMsg, Session.rollback]
        · simp only [handleRequest, routeRun, hcr, Session.logMsg, Session.rollback]
          simp [List.mem_append]
          exact Or.inl hmem
      · exact absurd rfl (hnsql c)
    · simp [routeRun, hcr, RouteOut.isPersistenceFailure] at hfail
  · rcases hcr : update_patient s pid u with ⟨r, t⟩
    rcases r with e | p
    · obtain ⟨i, k, hk, he⟩ := update_patient_error_spec s pid u e t hcr
      subst he
      refine ⟨?_, ?_, ?_, ⟨i, k, "Database session error: ", hk, ?_⟩⟩
      · simp [handleRequest, routeRun, hcr]
      · simp [handleRequest, routeRun, hcr, genericDetail]
      · simp [handleRequest, routeRun, hcr, Session.logMsg, Session.rollback]
      · simp only [handleRequest, routeRun, hcr, Session.logMsg, Session.rollback]
        simp [AppErr.msg, List.mem_append]
    · rcases p with _ | v <;>
        simp [routeRun, hcr, RouteOut.isPersistenceFailure] at hfail
  · rcases hcr : delete_patient s pid with ⟨r, t⟩
    rcases r with e | p
    · obtain ⟨i, k, hk, he⟩ := delete_patient_error_spec s pid e t hcr
      subst he
      refine ⟨?_, ?_, ?_, ⟨i, k, "Database session error: ", hk, ?_⟩⟩
      · simp [handleRequest, routeRun, hcr]
      · simp [handleRequest, routeRun, hcr, genericDetail]
      · simp [handleRequest, routeRun, hcr, Session.logMsg, Session.rollback]
      · simp only [handleRequest, routeRun, hcr, Session.logMsg, Session.rollback]
        simp [AppErr.msg, List.mem_append]
    · rcases p with _ | _ <;>
        simp [routeRun, hcr, RouteOut.isPersistenceFailure] at hfail
  · rcases hcr : create_medical_condition s mc with ⟨r, t⟩
    rcases r with e | p
    · obtain ⟨hnsql, hdb⟩ := create_medical_condition_error_spec s mc e t hcr
      rcases e with i | i | i | i | ⟨m, c⟩ | c
      · simp [routeRun, hcr, RouteOut.isPersistenceFailure] at hfail 
      · simp [routeRun, hcr, RouteOut.isPersistenceFailure] at hfail 
      · simp [routeRun, hcr, RouteOut.isPersistenceFailure] at hfail 
      · simp [routeRun, hcr, RouteOut.isPersistenceFailure] at hfail 
      · obtain ⟨i, k, pre, hk, hmem⟩ := hdb m c rfl
        refine ⟨?_, ?_, ?_, ⟨i, k, pre, hk, ?_⟩⟩
        · simp [handleRequest, routeRun, hcr]
        · simp [handleRequest, routeRun, hcr, genericDetail]
        · simp [handleRequest, routeRun, hcr, Session.logMsg, Session.rollback]
        · simp only [handleRequest, routeRun, hcr, Session.logMsg, Session.rollback]
          simp [List.mem_append]
          exact Or.inl hmem
      · exact absurd rfl (hnsql c)
    · simp [routeRun, hcr, RouteOut.isPersistenceFailure] at hfail
  · rcases hcr : update_medical_condition s cid u with ⟨r, t⟩
    rcases r with e | p
    · obtain ⟨hnsql, hdb⟩ := update_medical_condition_error_spec s cid u e t hcr
      rcases e with i | i | i | i | ⟨m, c⟩ | c
      · simp [routeRun, hcr, RouteOut.isPersistenceFailure] at hfail 
      · simp [routeRun, hcr, RouteOut.isPersistenceFailure] at hfail 
      · simp [routeRun, hcr, RouteOut.isPersistenceFailure] at hfail 
      · simp [routeRun, hcr, RouteOut.isPersistenceFailure] at hfail 
      · obtain ⟨i, k, pre, hk, hmem⟩ := hdb m c rfl
        refine ⟨?_, ?_, ?_, ⟨i, k, pre, hk, ?_⟩⟩
        · simp [handleRequest, routeRun, hcr]
        · simp [handleRequest, routeRun, hcr, genericDetail]
        · simp [handleRequest, routeRun, hcr, Session.logMsg, Session.rollback]
        · simp only [handleRequest, routeRun, hcr, Session.logMsg, Session.rollback]
          simp [List.mem_append]
          exact Or.inl hmem
      · exact absurd rfl (hnsql c)
    · rcases p with _ | v <;>
        simp [routeRun, hcr, RouteOut.isPersistenceFailure] at hfail
  · rcases hcr : delete_medical_condition s cid with ⟨r, t⟩
    rcases r with e | p
    · obtain ⟨hnsql, hdb⟩ := delete_medical_condition_error_spec s cid e t hcr
      rcases e with i | i | i | i | ⟨m, c⟩ | c
      · simp [routeRun, hcr, RouteOut.isPersistenceFailure] at hfail 
      · simp [routeRun, hcr, RouteOut.isPersistenceFailure] at hfail 
      · simp [routeRun, hcr, RouteOut.isPersistenceFailure] at hfail 
      · simp [routeRun, hcr, RouteOut.isPersistenceFailure] at hfail 
      · obtain ⟨i, k, pre, hk, hmem⟩ := hdb m c rfl
        refine ⟨?_, ?_, ?_, ⟨i, k, pre, hk, ?_⟩⟩
        · simp [handleRequest, routeRun, hcr]
        · simp [handleRequest, routeRun, hcr, genericDetail]
        · simp [handleRequest, routeRun, hcr, Session.logMsg, Session.rollback]
        · simp only [handleRequest, routeRun, hcr, Session.logMsg, Session.rollback]
          simp [List.mem_append]
          exact Or.inl hmem
      · exact absurd rfl (hnsql c)
    · rcases p with _ | _ <;>
        simp [routeRun, hcr, RouteOut.isPersistenceFailure] at hfail
  · rcases hcr : create_call_history s ch with ⟨r, t⟩
    rcases r with e | p
    · obtain ⟨hnsql, hdb⟩ := create_call_history_error_spec s ch e t hcr
      rcases e with i | i | i | i | ⟨m, c⟩ | c
      · simp [routeRun, hcr, RouteOut.isPersistenceFailure] at hfail 
      · simp [routeRun, hcr, RouteOut.isPersistenceFailure] at hfail 
      · simp [routeRun, hcr, RouteOut.isPersistenceFailure] at hfail 
      · simp [routeRun, hcr, RouteOut.isPersistenceFailure] at hfail 
      · obtain ⟨i, k, pre, hk, hmem⟩ := hdb m c rfl
        refine ⟨?_, ?_, ?_, ⟨i, k, pre, hk, ?_⟩⟩
        · simp [handleRequest, routeRun, hcr]
        · simp [handleRequest, routeRun, hcr, genericDetail]
        · simp [handleRequest, routeRun, hcr, Session.logMsg, Session.rollback]
        · simp only [handleRequest, routeRun, hcr, Session.logMsg, Session.rollback]
          simp [List.mem_append]
          exact Or.inl hmem
      · exact absurd rfl (hnsql c)
    · simp [routeRun, hcr, RouteOut.isPersistenceFailure] at hfail
  · rcases hcr : update_call_history s cid u with ⟨r, t⟩
    rcases r with e | p
    · obtain ⟨i, k, hk, he⟩ := update_call_history_error_spec s cid u e t hcr
      subst he
      refine ⟨?_, ?_, ?_, ⟨i, k, "Database session error: ", hk, ?_⟩⟩
      · simp [handleRequest, routeRun, hcr]
      · simp [handleRequest, routeRun, hcr, genericDetail]
      · simp [handleRequest, routeRun, hcr, Session.logMsg, Session.rollback]
      · simp only [handleRequest, routeRun, hcr, Session.logMsg, Session.rollback]
        simp [AppErr.msg, List.mem_append]
    · rcases p with _ | v <;>
        simp [routeRun, hcr, RouteOut.isPersistenceFailure] at hfail
  · rcases hcr : delete_call_history s cid with ⟨r, t⟩
    rcases r with e | p
    · obtain ⟨i, k, hk, he⟩ := delete_call_history_error_spec s cid e t hcr
      subst he
      refine ⟨?_, ?_, ?_, ⟨i, k, "Database session error: ", hk, ?_⟩⟩
      · simp [handleRequest, routeRun, hcr]
      · simp [handleRequest, routeRun, hcr, genericDetail]
      · simp [handleRequest, routeRun, hcr, Session.logMsg, Session.rollback]
      · simp only [handleRequest, routeRun, hcr, Session.logMsg, Session.rollback]
        simp [AppErr.msg, List.mem_append]
    · rcases p with _ | _ <;>
        simp [routeRun, hcr, RouteOut.isPersistenceFailure] at hfail


theorem C8_witness :
    (handleRequest (.deletePatientOp 3) exSessionFail).1.status = 500 ∧
    (handleRequest (.deletePatientOp 3) exSessionFail).1.detail =
      genericDetail (.deletePatientOp 3) ∧
    (handleRequest (.deletePatientOp 3) exSessionFail).2.current =
      (handleRequest (.deletePatientOp 3) exSessionFail).2.committed ∧
    ∃ i k pre, exSessionFail.failingCommits.lookup i = some k ∧
      pre ++ failCauseStr k i ∈ (handleRequest (.deletePatientOp 3) exSessionFail).2.log :=
  C8_persistence_failure_boundary (.deletePatientOp 3) exSessionFail (by decide)

end App
